import Mathlib

/-!
A formal model of kubetap (cmd/kubectl-tap): the tap/untap state-transition
engine that injects a mitmproxy sidecar next to a Kubernetes workload and
reroutes a corresponding Service through it. The definitions below are a
shallow embedding of the Go source in tap.go, mitmproxy.go and main.go;
the theorems at the end of the file settle the specification claims about
that code.

Modelling conventions:
- Kubernetes objects are plain structures holding exactly the fields the
  embedded code reads or writes.
- Go maps (annotations, labels, selectors) are association lists; Go map
  indexing with its empty-string default is annGetD.
- intstr.IntOrString is the inductive IntOrStr with the same Parse, String
  and IntValue behaviour, including the base-10 sign handling and 32-bit
  range check of strconv.ParseInt.
- The cluster API server is a Cluster value; every get, list, update,
  create and delete call of the Go code becomes a total function on it.
  Optimistic-lock conflicts are injected by a Boolean schedule: each
  update inside a retry.RetryOnConflict loop consumes one entry; true
  means the server answered with a conflict, so the loop retries exactly
  as client-go does (retry.DefaultRetry allows 5 attempts).
-/

set_option linter.unusedVariables false
set_option maxRecDepth 8192

namespace Kubetap

/-! ### intstr.IntOrString -/

/-- k8s.io/apimachinery intstr.IntOrString. -/
inductive IntOrStr where
  | int (n : Int)
  | str (s : String)
deriving DecidableEq, Repr

/-- Decimal digits folded to a value; none when a non-digit occurs. -/
def decDigits? (cs : List Char) : Option Nat :=
  cs.foldl (fun acc c =>
    match acc with
    | none => none
    | some n => if c.isDigit then some (n * 10 + (c.toNat - 48)) else none) (some 0)

/-- Signed base-10 parse, as strconv.ParseInt with bitSize 64 before the
range check: optional leading plus or minus, then at least one digit. -/
def parseDecInt? (s : String) : Option Int :=
  match s.data with
  | [] => none
  | c :: rest =>
    if c = '+' then
      match rest with
      | [] => none
      | _ => (decDigits? rest).map (fun n => (n : Int))
    else if c = '-' then
      match rest with
      | [] => none
      | _ => (decDigits? rest).map (fun n => -(n : Int))
    else (decDigits? (c :: rest)).map (fun n => (n : Int))

/-- strconv.ParseInt(s, 10, 32): errors (none) outside the int32 range. -/
def parseInt32? (s : String) : Option Int :=
  match parseDecInt? s with
  | some n => if -(2 ^ 31) ≤ n ∧ n < 2 ^ 31 then some n else none
  | none => none

/-- intstr.Parse: an int32-parsable string becomes an Int, anything else a
String. This is the numeric/name-disambiguating parser used by untapSvc. -/
def intstrParse (s : String) : IntOrStr :=
  match parseInt32? s with
  | some n => .int n
  | none => .str s

/-- IntOrString.String(): decimal form of an Int, the raw value of a String. -/
def IntOrStr.string : IntOrStr → String
  | .int n => toString n
  | .str s => s

/-- IntOrString.IntValue(): an Int directly; a String through strconv.Atoi
with its error ignored, which yields 0 on a syntax error and the clamped
int64 bound on overflow. -/
def IntOrStr.intValue : IntOrStr → Int
  | .int n => n
  | .str s =>
    match parseDecInt? s with
    | some n =>
      if n < -(2 ^ 63) then -(2 ^ 63)
      else if 2 ^ 63 - 1 < n then 2 ^ 63 - 1
      else n
    | none => 0

/-! ### Go maps as association lists -/

/-- Map lookup: the value stored at key k, if any. -/
def annGet (anns : List (String × String)) (k : String) : Option String :=
  (anns.find? (fun kv => kv.1 == k)).map (fun kv => kv.2)

/-- Go map indexing anns[k]: missing keys read as the empty string. -/
def annGetD (anns : List (String × String)) (k : String) : String :=
  (annGet anns k).getD (r"")

/-- Go map assignment anns[k] = v. -/
def annSet (anns : List (String × String)) (k v : String) : List (String × String) :=
  if (anns.find? (fun kv => kv.1 == k)).isSome then
    anns.map (fun kv => if kv.1 == k then (k, v) else kv)
  else anns ++ [(k, v)]

/-- Go delete(anns, k). -/
def annDel (anns : List (String × String)) (k : String) : List (String × String) :=
  anns.filter (fun kv => kv.1 != k)

/-- Observational equality of two annotation maps under Go map indexing:
every key reads the same (missing keys read ""). -/
def annsEquiv (a b : List (String × String)) : Prop :=
  ∀ k, annGetD a k = annGetD b k

/-! ### Constants from main.go, tap.go and mitmproxy.go -/

def annotationOriginalTargetPort : String := "kubetap.io/original-port"
def annotationConfigMap : String := "kubetap.io/proxy-config"
def annotationIsTapped : String := "kubetap.io/tapped"

def defaultImageHTTP : String := "gcr.io/soluble-oss/kubetap-mitmproxy:latest"
def defaultImageRaw : String := "gcr.io/soluble-oss/kubetap-raw:latest"
def defaultImageGRPC : String := "gcr.io/soluble-oss/kubetap-grpc:latest"

def kubetapContainerName : String := "kubetap"
def kubetapServicePortName : String := "kubetap-web"
def kubetapPortName : String := "kubetap-listen"
def kubetapWebPortName : String := "kubetap-web"
def kubetapProxyListenPort : Int := 7777
def kubetapProxyWebInterfacePort : Int := 2244

/-- kubetapConfigMapPrefix in the source. -/
def kubetapConfigMapPrefixStr : String := "kubetap-target-"

/-- configMapAnnotationPrefix in the source. -/
def configMapAnnotationPrefixStr : String := "target-"

/-- The bare "kubetap" literal used by the untap volume filter. -/
def kubetapStr : String := "kubetap"

def mitmproxyDataVolName : String := "kubetap-mitmproxy-data"
def mitmproxyConfigFile : String := "config.yaml"
def mitmproxyBaseConfig : String :=
  "listen_port: 7777\nssl_insecure: true\nweb_port: 2244\nweb_host: 0.0.0.0\nweb_open_browser: false\n"

/-- retry.DefaultRetry from client-go allows 5 attempts of the body. -/
def defaultRetrySteps : Nat := 5

/-! ### Errors (tap.go var block, plus API / plumbing errors) -/

/-- Error kinds. The named constructors are the sentinel errors of tap.go;
NotFound / AlreadyExists / Conflict stand for the Kubernetes API status
errors; InvalidArgument is os.ErrInvalid; Msg is a fresh fmt.Errorf;
Wrapped is fmt.Errorf with %w, which preserves the cause for errors.Is;
Panic marks the one defensive panic in NewUntapCommand. -/
inductive Err where
  | NamespaceNotExist
  | ServiceMissingPort
  | ServiceTapped
  | ServiceSelectorNoMatch
  | ServiceSelectorMultiMatch
  | DeploymentOutsideNamespace
  | SelectorsMissing
  | ConfigMapNoMatch
  | KubetapPodNoMatch
  | CreateResourceMismatch
  | DeploymentMissingPorts
  | InvalidArgument
  | NotFound (kind name : String)
  | AlreadyExists (kind name : String)
  | Conflict
  | Msg (msg : String)
  | Wrapped (ctx : String) (cause : Err)
  | Panic (cause : Err)
deriving DecidableEq, Repr

def kindServices : String := "services"
def kindDeployments : String := "deployments"
def kindConfigMaps : String := "configmaps"

/-! ### Data model -/

/-- v1.ServicePort: the fields the code touches. -/
structure ServicePort where
  name : String
  port : Int
  targetPort : IntOrStr
deriving DecidableEq, Repr

/-- v1.Service: the fields the code touches. -/
structure Service where
  name : String
  ns : String
  annotations : List (String × String)
  selector : List (String × String)
  ports : List ServicePort
deriving DecidableEq, Repr

structure ContainerPort where
  name : String
  containerPort : Int
deriving DecidableEq, Repr

structure VolumeMount where
  name : String
  mountPath : String
  readOnly : Bool
deriving DecidableEq, Repr

/-- The HTTP readiness probe carried by the sidecar container. -/
structure Probe where
  path : String
  port : IntOrStr
  scheme : String
  initialDelaySeconds : Int
  periodSeconds : Int
  successThreshold : Int
  timeoutSeconds : Int
deriving DecidableEq, Repr

structure Container where
  name : String
  image : String
  args : List String
  imagePullPolicy : String
  ports : List ContainerPort
  readinessProbe : Option Probe
  volumeMounts : List VolumeMount
deriving DecidableEq, Repr

inductive VolumeSource where
  | configMap (localRefName : String)
  | emptyDir
deriving DecidableEq, Repr

structure Volume where
  name : String
  source : VolumeSource
deriving DecidableEq, Repr

/-- The Deployment pod template: annotations, containers, volumes. -/
structure PodTemplate where
  annotations : List (String × String)
  containers : List Container
  volumes : List Volume
deriving DecidableEq, Repr

structure Deployment where
  name : String
  ns : String
  labels : List (String × String)
  template : PodTemplate
deriving DecidableEq, Repr

/-- v1.ConfigMap. binaryData is an Option because the code distinguishes a
nil BinaryData in the create echo from an empty one. -/
structure ConfigMap where
  name : String
  ns : String
  annotations : List (String × String)
  binaryData : Option (List (String × String))
deriving DecidableEq, Repr

/-- The cluster: the sole shared mutable resource of the program. -/
structure Cluster where
  namespaces : List String
  services : List Service
  deployments : List Deployment
  configMaps : List ConfigMap
deriving DecidableEq, Repr

/-! ### Cluster API calls -/

def getService (c : Cluster) (ns name : String) : Option Service :=
  c.services.find? (fun s => s.ns == ns && s.name == name)

/-- Service Update: replace the object with the same namespace and name.
The code only updates objects it has just fetched, so the missing-object
error of the real call does not arise; conflicts are injected separately
by the retry-loop schedules. -/
def updateService (c : Cluster) (svc : Service) : Cluster :=
  { c with services := c.services.map (fun s => if s.ns = svc.ns ∧ s.name = svc.name then svc else s) }

def deploymentsIn (c : Cluster) (ns : String) : List Deployment :=
  c.deployments.filter (fun d => d.ns == ns)

def getDeployment (c : Cluster) (ns name : String) : Option Deployment :=
  c.deployments.find? (fun d => d.ns == ns && d.name == name)

/-- Deployment Update, with the same conventions as updateService. -/
def updateDeployment (c : Cluster) (d : Deployment) : Cluster :=
  { c with deployments := c.deployments.map (fun x => if x.ns = d.ns ∧ x.name = d.name then d else x) }

def configMapsIn (c : Cluster) (ns : String) : List ConfigMap :=
  c.configMaps.filter (fun cm => cm.ns == ns)

def createConfigMapOp (c : Cluster) (cm : ConfigMap) : Except Err (ConfigMap × Cluster) :=
  if (c.configMaps.find? (fun x => x.ns == cm.ns && x.name == cm.name)).isSome then
    .error (.AlreadyExists kindConfigMaps cm.name)
  else .ok (cm, { c with configMaps := c.configMaps ++ [cm] })

def deleteConfigMapOp (c : Cluster) (ns name : String) : Except Err Cluster :=
  if (c.configMaps.find? (fun x => x.ns == ns && x.name == name)).isSome then
    .ok { c with configMaps := c.configMaps.filter (fun x => !(x.ns == ns && x.name == name)) }
  else .error (.NotFound kindConfigMaps name)

/-- hasNamespace: the namespace list contains the given name. The Go
function additionally errors on an empty string, which the commands below
never pass after defaulting. -/
def hasNamespace (c : Cluster) (ns : String) : Bool :=
  c.namespaces.contains ns

/-! ### ProxyOptions and the mitmproxy Tap implementation -/

/-- ProxyOptions from tap.go. -/
structure ProxyOptions where
  target : String
  protocol : String
  upstreamHTTPS : Bool
  upstreamPort : String
  mode : String
  ns : String
  image : String
  dplName : String
deriving DecidableEq, Repr

/-- MitmproxySidecarContainer from mitmproxy.go: image and args are filled
in by NewTapCommand; the first volume mount name by Sidecar. -/
def MitmproxySidecarContainer : Container :=
  { name := kubetapContainerName
    image := ""
    args := []
    imagePullPolicy := "Always"
    ports := [
      { name := kubetapPortName, containerPort := kubetapProxyListenPort },
      { name := kubetapWebPortName, containerPort := kubetapProxyWebInterfacePort } ]
    readinessProbe := some
      { path := "/"
        port := .int kubetapProxyWebInterfacePort
        scheme := "HTTP"
        initialDelaySeconds := 5
        periodSeconds := 5
        successThreshold := 3
        timeoutSeconds := 5 }
    volumeMounts := [
      { name := "", mountPath := "/home/mitmproxy/config/", readOnly := false },
      { name := mitmproxyDataVolName, mountPath := "/home/mitmproxy/.mitmproxy", readOnly := false } ] }

/-- Mitmproxy.Sidecar: the sidecar container with the config volume mount
named after the deployment. -/
def Mitmproxy.Sidecar (deploymentName : String) : Container :=
  let c := MitmproxySidecarContainer
  { c with volumeMounts :=
      match c.volumeMounts with
      | [] => []
      | m :: rest => { m with name := kubetapConfigMapPrefixStr ++ deploymentName } :: rest }

/-- Mitmproxy.PatchDeployment: appends the ConfigMap volume and the
emptyDir data volume to the pod template. -/
def Mitmproxy.PatchDeployment (d : Deployment) : Deployment :=
  { d with template := { d.template with volumes := d.template.volumes ++ [
      { name := kubetapConfigMapPrefixStr ++ d.name
        source := .configMap (kubetapConfigMapPrefixStr ++ d.name) },
      { name := mitmproxyDataVolName, source := .emptyDir } ] } }

/-- One iteration of the Deployment-update closure in NewTapCommand: append
the sidecar to the captured deployment, run PatchDeployment, and set the
tapped annotation on the pod template. The closure does not re-fetch the
deployment, so on a conflict retry it runs again on its own output. -/
def tapDplAttempt (dpl : Deployment) (sidecar : Container) : Deployment :=
  let d1 := { dpl with template := { dpl.template with
    containers := dpl.template.containers ++ [sidecar] } }
  let d2 := Mitmproxy.PatchDeployment d1
  { d2 with template := { d2.template with
    annotations := annSet d2.template.annotations annotationIsTapped d2.name } }

/-- The body of the Deployment-update closure in NewUntapCommand, applied
to a freshly fetched deployment: drop the kubetap container, drop every
volume whose name starts with "kubetap", delete the tapped annotation. -/
def untapDplTransform (d : Deployment) : Deployment :=
  { d with template := { d.template with
      containers := d.template.containers.filter (fun c => c.name != kubetapContainerName)
      volumes := d.template.volumes.filter (fun v => !(v.name.startsWith kubetapStr))
      annotations := annDel d.template.annotations annotationIsTapped } }

/-! ### tapSvc / untapSvc service transforms -/

/-- The port-location loop of tapSvc: the last entry whose port number
equals the requested port, if any. -/
def findTargetPort (ports : List ServicePort) (targetPort : Int) : Option ServicePort :=
  ports.foldl (fun acc sp => if sp.port = targetPort then some sp else acc) none

/-- The extra Service port routing the proxy web interface to itself. -/
def proxySvcPort : ServicePort :=
  { name := kubetapServicePortName
    port := kubetapProxyWebInterfacePort
    targetPort := .int kubetapProxyWebInterfacePort }

/-- The swap step of tapSvc, applied to every port entry: an entry with the
tapped port number gets the proxy listen port as target, and the reserved
listen-port name when it had none. -/
def tapSvcSwapPort (tport : Int) (sp : ServicePort) : ServicePort :=
  if sp.port = tport then
    { sp with
      name := if sp.name = "" then kubetapPortName else sp.name
      targetPort := .int kubetapProxyListenPort }
  else sp

/-- The body of the tapSvc retry closure on a freshly fetched Service:
refuse when already tapped, record the original target port in the
annotation, append the proxy web port, swap the matched entry. -/
def tapSvcTransform (svc : Service) (targetPort : Int) : Except Err Service :=
  if annGetD svc.annotations annotationOriginalTargetPort ≠ "" then .error .ServiceTapped
  else
    match findTargetPort svc.ports targetPort with
    | none => .error .ServiceMissingPort
    | some targetSvcPort =>
      let anns := annSet svc.annotations annotationOriginalTargetPort targetSvcPort.targetPort.string
      let ports1 := svc.ports ++ [proxySvcPort]
      let ports2 := ports1.map (tapSvcSwapPort targetSvcPort.port)
      .ok { svc with annotations := anns, ports := ports2 }

/-- The port loop of untapSvc: skip the proxy web port entry; restore the
target of an entry pointing at the proxy listen port, stripping the
reserved listen-port name if it carries it. -/
def untapPortsLoop (orig : IntOrStr) : List ServicePort → List ServicePort
  | [] => []
  | sp :: rest =>
    if sp.name = kubetapServicePortName then untapPortsLoop orig rest
    else
      let sp2 :=
        if sp.targetPort.intValue = kubetapProxyListenPort then
          { sp with
            name := if sp.name = kubetapPortName then "" else sp.name
            targetPort := orig }
        else sp
      sp2 :: untapPortsLoop orig rest

/-- The body of the untapSvc retry closure on a freshly fetched Service:
parse the recorded original target port with intstr.Parse, rebuild the
port list, and drop the bookkeeping annotation. -/
def untapSvcTransform (svc : Service) : Service :=
  let orig := intstrParse (annGetD svc.annotations annotationOriginalTargetPort)
  { svc with
    ports := untapPortsLoop orig svc.ports
    annotations := annDel svc.annotations annotationOriginalTargetPort }

/-! ### ConfigMap create / destroy (mitmproxy.go) -/

/-- corev1.ConfigMapInterface: the three calls the code makes. The cluster
instantiation is clusterCMClient; theorems about the defensive checks of
createMitmproxyConfigMap quantify over arbitrary clients, matching the
interface-typed Go parameter. -/
structure ConfigMapClient (σ : Type) where
  create : σ → ConfigMap → (Except Err ConfigMap) × σ
  list : σ → List ConfigMap
  delete : σ → String → (Except Err Unit) × σ

def clusterCMClient (ns : String) : ConfigMapClient Cluster :=
  { create := fun c cm =>
      match createConfigMapOp c cm with
      | .error e => (.error e, c)
      | .ok (ccm, c2) => (.ok ccm, c2)
    list := fun c => configMapsIn c ns
    delete := fun c name =>
      match deleteConfigMapOp c ns name with
      | .error e => (.error e, c)
      | .ok c2 => (.ok (), c2) }

def errOnlyReverse : String := "mitmproxy container only supports \"reverse\" mode"

def invalidProxyModeMsg (mode : String) : String := "invalid proxy mode: \"" ++ mode ++ "\""

/-- The mode switch of createMitmproxyConfigMap: the payload is the fixed
base text plus one mode line whose scheme follows UpstreamHTTPS; every
mode other than "reverse" is rejected before any cluster call. -/
def mitmproxyConfigPayload (proxyOpts : ProxyOptions) : Except Err String :=
  match proxyOpts.mode with
  | "reverse" =>
    if proxyOpts.upstreamHTTPS then
      .ok (mitmproxyBaseConfig ++ "mode: reverse:https://127.0.0.1:" ++ proxyOpts.upstreamPort)
    else
      .ok (mitmproxyBaseConfig ++ "mode: reverse:http://127.0.0.1:" ++ proxyOpts.upstreamPort)
  | "regular" => .error (.Msg errOnlyReverse)
  | "socks5" => .error (.Msg errOnlyReverse)
  | "upstream" => .error (.Msg errOnlyReverse)
  | "transparent" => .error (.Msg errOnlyReverse)
  | other => .error (.Msg (invalidProxyModeMsg other))

/-- The ConfigMap createMitmproxyConfigMap submits. -/
def builtConfigMap (proxyOpts : ProxyOptions) (payload : String) : ConfigMap :=
  { name := kubetapConfigMapPrefixStr ++ proxyOpts.dplName
    ns := proxyOpts.ns
    annotations := [(annotationConfigMap, configMapAnnotationPrefixStr ++ proxyOpts.dplName)]
    binaryData := some [(mitmproxyConfigFile, payload)] }

/-- createMitmproxyConfigMap: build the payload, submit the ConfigMap, and
verify the echoed payload has the same byte length as the submitted one,
failing CreateResourceMismatch otherwise. -/
def createMitmproxyConfigMap {σ : Type} (client : ConfigMapClient σ) (s : σ)
    (proxyOpts : ProxyOptions) : (Except Err Unit) × σ :=
  match mitmproxyConfigPayload proxyOpts with
  | .error e => (.error e, s)
  | .ok payload =>
    let cm := builtConfigMap proxyOpts payload
    let slen := payload.utf8ByteSize
    if slen = 0 then (.error .InvalidArgument, s)
    else
      match client.create s cm with
      | (.error e, s2) => (.error e, s2)
      | (.ok ccm, s2) =>
        match ccm.binaryData with
        | none => (.error .InvalidArgument, s2)
        | some bd =>
          let cdata := annGetD bd mitmproxyConfigFile
          if cdata.utf8ByteSize ≠ slen then (.error .CreateResourceMismatch, s2)
          else (.ok (), s2)

/-- destroyMitmproxyConfigMap: list the namespace, keep the ConfigMaps whose
proxy-config annotation names this deployment, error ConfigMapNoMatch when
none do, otherwise delete the first. -/
def destroyMitmproxyConfigMap {σ : Type} (client : ConfigMapClient σ) (s : σ)
    (deploymentName : String) : (Except Err Unit) × σ :=
  if deploymentName = "" then (.error .InvalidArgument, s)
  else
    let cms := client.list s
    let targetConfigMapNames := (cms.filter (fun cm => cm.annotations.any (fun kv =>
        kv.1 == annotationConfigMap && kv.2 == configMapAnnotationPrefixStr ++ deploymentName))).map
        (fun cm => cm.name)
    match targetConfigMapNames with
    | [] => (.error .ConfigMapNoMatch, s)
    | n :: _ => client.delete s n

def unexpectedCMProblemMsg : String := "there was an unexpected problem creating the ConfigMap"

/-- Mitmproxy.ReadyEnv: create the ConfigMap; on failure destroy any stray
one under the same key (ignoring that outcome) and retry the create once,
mapping a second os.ErrInvalid to a fresh descriptive error. -/
def Mitmproxy.ReadyEnv (c : Cluster) (opts : ProxyOptions) : (Except Err Unit) × Cluster :=
  let client := clusterCMClient opts.ns
  match createMitmproxyConfigMap client c opts with
  | (.ok _, c2) => (.ok (), c2)
  | (.error _, c2) =>
    let (_, c3) := destroyMitmproxyConfigMap client c2 opts.dplName
    match createMitmproxyConfigMap client c3 opts with
    | (.ok _, c4) => (.ok (), c4)
    | (.error rErr, c4) =>
      if rErr = .InvalidArgument then (.error (.Msg unexpectedCMProblemMsg), c4)
      else (.error rErr, c4)

/-- Mitmproxy.UnreadyEnv: destroy the per-target ConfigMap. -/
def Mitmproxy.UnreadyEnv (c : Cluster) (opts : ProxyOptions) : (Except Err Unit) × Cluster :=
  destroyMitmproxyConfigMap (clusterCMClient opts.ns) c opts.dplName

/-! ### deploymentFromSelectors -/

/-- The label-query string deploymentFromSelectors builds: one pair becomes
"k=v"; several pairs are joined with "," (folded with a leading comma that
strings.TrimLeft then strips). Go map iteration order is unspecified; the
list order stands in for one such order. -/
def selectorQuery (selectors : List (String × String)) : String :=
  match selectors with
  | [] => ""
  | [kv] => kv.1 ++ "=" ++ kv.2
  | _ =>
    let sel := selectors.foldl (fun sel kv => sel ++ "," ++ (kv.1 ++ "=" ++ kv.2)) (r"")
    sel.dropWhile (fun ch => ch = ',')

/-- The API server semantics of the equality-clause label query built by
selectorQuery: AND over the pairs, exact match per key. -/
def matchesSelectors (labels : List (String × String)) (selectors : List (String × String)) : Bool :=
  selectors.all (fun kv => annGet labels kv.1 == some kv.2)

/-- deploymentFromSelectors: refuse an empty selector map; list Deployments
matching the joined label query; demand exactly one match. -/
def deploymentFromSelectors (dpls : List Deployment) (selectors : List (String × String)) :
    Except Err Deployment :=
  match selectors with
  | [] => .error .SelectorsMissing
  | _ =>
    match dpls.filter (fun d => matchesSelectors d.labels selectors) with
    | [] => .error .ServiceSelectorNoMatch
    | [d] => .ok d
    | _ => .error .ServiceSelectorMultiMatch

/-! ### Upstream port resolution (NewTapCommand, first loop) -/

def wrapResolvePortsMsg : String :=
  "error resolving Deployment from Service selectors while setting proxy ports"

def wrapResolveDeploymentMsg : String := "error resolving Deployment from Service selectors"

def wrapAddSidecarsMsg : String := "failed to add sidecars to Deployment"

def wrapRemoveSidecarsMsg : String := "failed to remove sidecars from Deployment"

def wrapTapSvcMsg : String := "failed to tap Service"

def wrapUntapSvcMsg : String := "failed to untap Service"

def portFlagMissingMsg : String := "--port flag not provided"

def modeNotSupportedMsg (image : String) : String :=
  "mode \"" ++ image ++ "\" is currently not supported"

/-- The container scan of the named-target-port branch: the last container
port whose name equals the target-port name wins; the accumulator is the
upstream-port string resolved so far. -/
def containerPortByName (containers : List Container) (portName : String) (acc : String) : String :=
  containers.foldl (fun a c =>
    c.ports.foldl (fun a2 p => if p.name = portName then toString p.containerPort else a2) a) acc

/-- The upstream-port loop of NewTapCommand over the Service ports: a
numeric target port is taken directly; a named one is resolved against the
backing Deployment, failing DeploymentMissingPorts when no container port
carries the name. -/
def resolveUpstreamLoop (dpls : List Deployment) (sel : List (String × String))
    (targetSvcPort : Int) : List ServicePort → String → Except Err String
  | [], acc => .ok acc
  | sp :: rest, acc =>
    if sp.port ≠ targetSvcPort then resolveUpstreamLoop dpls sel targetSvcPort rest acc
    else
      match sp.targetPort with
      | .int n => resolveUpstreamLoop dpls sel targetSvcPort rest (IntOrStr.string (.int n))
      | .str nm =>
        match deploymentFromSelectors dpls sel with
        | .error e => .error (.Wrapped wrapResolvePortsMsg e)
        | .ok targetDpl =>
          let acc2 := containerPortByName targetDpl.template.containers nm acc
          if acc2 = "" then .error .DeploymentMissingPorts
          else resolveUpstreamLoop dpls sel targetSvcPort rest acc2

/-- The resolved ProxyOptions.UpstreamPort (empty when no Service port
matches the requested one). -/
def resolveUpstreamPort (dpls : List Deployment) (svc : Service) (targetSvcPort : Int) :
    Except Err String :=
  resolveUpstreamLoop dpls svc.selector targetSvcPort svc.ports (r"")

/-! ### retry.RetryOnConflict loops -/

/-- The Service update loops of tapSvc and untapSvc: each attempt re-fetches
the Service and recomputes the new value; the schedule says whether the
Update is answered with a conflict. Exhaustion surfaces the last conflict. -/
def svcUpdateLoop (transform : Service → Except Err Service) (ns svcName : String) :
    Nat → Cluster → List Bool → (Except Err Unit) × Cluster
  | 0, c, _ => (.error .Conflict, c)
  | n + 1, c, sched =>
    match getService c ns svcName with
    | none => (.error (.NotFound kindServices svcName), c)
    | some svc =>
      match transform svc with
      | .error e => (.error e, c)
      | .ok svc2 =>
        match sched with
        | true :: rest => svcUpdateLoop transform ns svcName n c rest
        | _ => (.ok (), updateService c svc2)

/-- tapSvc: the retry loop around tapSvcTransform, errors wrapped as
"failed to tap Service". -/
def tapSvc (c : Cluster) (ns svcName : String) (targetPort : Int) (sched : List Bool) :
    (Except Err Unit) × Cluster :=
  match svcUpdateLoop (fun s => tapSvcTransform s targetPort) ns svcName defaultRetrySteps c sched with
  | (.error e, c2) => (.error (.Wrapped wrapTapSvcMsg e), c2)
  | (.ok u, c2) => (.ok u, c2)

/-- untapSvc: the retry loop around untapSvcTransform, errors wrapped as
"failed to untap Service". -/
def untapSvc (c : Cluster) (ns svcName : String) (sched : List Bool) :
    (Except Err Unit) × Cluster :=
  match svcUpdateLoop (fun s => .ok (untapSvcTransform s)) ns svcName defaultRetrySteps c sched with
  | (.error e, c2) => (.error (.Wrapped wrapUntapSvcMsg e), c2)
  | (.ok u, c2) => (.ok u, c2)

/-- The Deployment update loop of NewTapCommand. The closure captures the
deployment fetched before the loop and never re-fetches it, so each
conflicted attempt feeds its own output into the next attempt. -/
def tapDplLoop (sidecar : Container) :
    Nat → Cluster → Deployment → List Bool → (Except Err Unit) × Cluster
  | 0, c, _, _ => (.error .Conflict, c)
  | n + 1, c, dpl, sched =>
    let dpl2 := tapDplAttempt dpl sidecar
    match sched with
    | true :: rest => tapDplLoop sidecar n c dpl2 rest
    | _ => (.ok (), updateDeployment c dpl2)

/-- The Deployment update loop of NewUntapCommand, which explicitly
re-fetches the deployment on every attempt. -/
def untapDplLoop (ns dplName : String) :
    Nat → Cluster → List Bool → (Except Err Unit) × Cluster
  | 0, c, _ => (.error .Conflict, c)
  | n + 1, c, sched =>
    match getDeployment c ns dplName with
    | none => (.error (.NotFound kindDeployments dplName), c)
    | some deployment =>
      let d2 := untapDplTransform deployment
      match sched with
      | true :: rest => untapDplLoop ns dplName n c rest
      | _ => (.ok (), updateDeployment c d2)

/-! ### The tap / untap commands -/

/-- The inputs NewUntapCommand reads from its arguments and flags. -/
structure UntapArgs where
  targetSvcName : String
  ns : String
deriving DecidableEq, Repr

/-- The inputs NewTapCommand reads from its arguments and flags (the
port-forward and browser interactive flags held false: the interactive
flow is outside the embedded core). -/
structure TapArgs where
  targetSvcName : String
  protocol : String
  targetSvcPort : Int
  ns : String
  image : String
  https : Bool
  commandArgs : List String
deriving DecidableEq, Repr

/-- Conflict schedule for the one retried update of NewUntapCommand plus
the Service update of untapSvc. -/
structure UntapSched where
  dpl : List Bool
  svc : List Bool
deriving DecidableEq, Repr

/-- Conflict schedules for NewTapCommand: its Deployment update, the
Service update of tapSvc, and the schedules handed to a rollback untap. -/
structure TapSched where
  dpl : List Bool
  svc : List Bool
  rollback : UntapSched
deriving DecidableEq, Repr

/-- The ProxyOptions NewUntapCommand builds (NewMitmproxy forces the mode
to "reverse"). -/
def mkUntapProxyOpts (ns target dplName : String) : ProxyOptions :=
  { target := target
    protocol := ""
    upstreamHTTPS := false
    upstreamPort := ""
    mode := "reverse"
    ns := ns
    image := ""
    dplName := dplName }

/-- The tail of NewUntapCommand after UnreadyEnv: remove the sidecar and
kubetap volumes from the Deployment under conflict-retry, then restore the
Service ports. -/
def untapAfterEnv (c : Cluster) (ns svcName dplName : String) (sched : UntapSched) :
    (Except Err Unit) × Cluster :=
  match untapDplLoop ns dplName defaultRetrySteps c sched.dpl with
  | (.error e, c2) => (.error (.Wrapped wrapRemoveSidecarsMsg e), c2)
  | (.ok _, c2) =>
    match untapSvc c2 ns svcName sched.svc with
    | (.error e, c3) => (.error e, c3)
    | (.ok _, c3) => (.ok (), c3)

/-- NewUntapCommand: default the namespace, verify it, fetch the Service,
resolve the backing Deployment, destroy the per-target ConfigMap (a
ConfigMapNoMatch outcome is tolerated, any other error is fatal), then
remove the sidecar and restore the Service. -/
def NewUntapCommand (c : Cluster) (a : UntapArgs) (sched : UntapSched) :
    (Except Err Unit) × Cluster :=
  let ns := if a.ns = "" then "default" else a.ns
  if ¬ hasNamespace c ns then (.error .NamespaceNotExist, c)
  else
    match getService c ns a.targetSvcName with
    | none => (.error (.NotFound kindServices a.targetSvcName), c)
    | some targetService =>
      match deploymentFromSelectors (deploymentsIn c ns) targetService.selector with
      | .error e => (.error e, c)
      | .ok dpl =>
        if dpl.ns ≠ ns then (.error (.Panic .DeploymentOutsideNamespace), c)
        else
          match Mitmproxy.UnreadyEnv c (mkUntapProxyOpts ns a.targetSvcName dpl.name) with
          | (.error e, c1) =>
            if e = .ConfigMapNoMatch then untapAfterEnv c1 ns a.targetSvcName dpl.name sched
            else (.error e, c1)
          | (.ok _, c1) => untapAfterEnv c1 ns a.targetSvcName dpl.name sched

/-- NewTapCommand: flag validation, namespace check, protocol gate, the
already-tapped short-circuit, upstream-port resolution, Deployment
resolution, ConfigMap preparation, sidecar injection under conflict-retry,
and the Service port swap; the two mutating tail steps roll back by
running the full untap command and discarding its outcome. -/
def NewTapCommand (c : Cluster) (a : TapArgs) (sched : TapSched) :
    (Except Err Unit) × Cluster :=
  if a.targetSvcPort = 0 then (.error (.Msg portFlagMissingMsg), c)
  else
    let ns := if a.ns = "" then "default" else a.ns
    if ¬ hasNamespace c ns then (.error .NamespaceNotExist, c)
    else if a.image = defaultImageHTTP ∧ (a.protocol = "tcp" ∨ a.protocol = "udp") then
      (.error (.Msg (modeNotSupportedMsg defaultImageRaw)), c)
    else if a.image = defaultImageHTTP ∧ a.protocol = "grpc" then
      (.error (.Msg (modeNotSupportedMsg defaultImageGRPC)), c)
    else
      match getService c ns a.targetSvcName with
      | none => (.error (.NotFound kindServices a.targetSvcName), c)
      | some targetService =>
        if annGetD targetService.annotations annotationOriginalTargetPort ≠ "" then
          (.error .ServiceTapped, c)
        else
          match resolveUpstreamPort (deploymentsIn c ns) targetService a.targetSvcPort with
          | .error e => (.error e, c)
          | .ok upstreamPort =>
            match deploymentFromSelectors (deploymentsIn c ns) targetService.selector with
            | .error e => (.error (.Wrapped wrapResolveDeploymentMsg e), c)
            | .ok targetDpl =>
              let opts : ProxyOptions :=
                { target := a.targetSvcName
                  protocol := a.protocol
                  upstreamHTTPS := a.https
                  upstreamPort := upstreamPort
                  mode := "reverse"
                  ns := ns
                  image := a.image
                  dplName := targetDpl.name }
              match Mitmproxy.ReadyEnv c opts with
              | (.error e, c1) => (.error e, c1)
              | (.ok _, c1) =>
                match deploymentFromSelectors (deploymentsIn c1 ns) targetService.selector with
                | .error e => (.error e, c1)
                | .ok dpl =>
                  let sidecar0 := Mitmproxy.Sidecar dpl.name
                  let sidecar := { sidecar0 with image := a.image, args := a.commandArgs }
                  match tapDplLoop sidecar defaultRetrySteps c1 dpl sched.dpl with
                  | (.error retryErr, c2) =>
                    let r := NewUntapCommand c2 { targetSvcName := a.targetSvcName, ns := a.ns }
                      sched.rollback
                    (.error (.Wrapped wrapAddSidecarsMsg retryErr), r.2)
                  | (.ok _, c2) =>
                    match tapSvc c2 ns a.targetSvcName a.targetSvcPort sched.svc with
                    | (.error e, c3) =>
                      let r := NewUntapCommand c3 { targetSvcName := a.targetSvcName, ns := a.ns }
                        sched.rollback
                      (.error e, r.2)
                    | (.ok _, c3) => (.ok (), c3)

/-! ### Decidability plumbing -/

/-- Decidable equality for Except results, so that concrete runs of the
model can be checked by decide. -/
def exceptDecEq {ε α : Type} [DecidableEq ε] [DecidableEq α] : DecidableEq (Except ε α)
  | .error e, .error f =>
    if h : e = f then .isTrue (by rw [h]) else .isFalse (fun hh => by cases hh; exact h rfl)
  | .error _, .ok _ => .isFalse (fun hh => by cases hh)
  | .ok _, .error _ => .isFalse (fun hh => by cases hh)
  | .ok a, .ok b =>
    if h : a = b then .isTrue (by rw [h]) else .isFalse (fun hh => by cases hh; exact h rfl)

instance {ε α : Type} [DecidableEq ε] [DecidableEq α] : DecidableEq (Except ε α) := exceptDecEq

/-! ### Helper lemmas about the map model -/

theorem annGet_nil (k : String) : annGet [] k = none := rfl

theorem annGet_cons (k' v k : String) (t : List (String × String)) :
    annGet ((k', v) :: t) k = if k' = k then some v else annGet t k := by
  by_cases h : k' = k
  · simp [annGet, List.find?, h]
  · have hb : ((k', v).1 == k) = false := by simpa using h
    simp [annGet, List.find?, hb, h]

theorem annGetD_cons (k' v k : String) (t : List (String × String)) :
    annGetD ((k', v) :: t) k = if k' = k then v else annGetD t k := by
  simp only [annGetD, annGet_cons]
  by_cases h : k' = k
  · simp [h]
  · simp [h]

theorem annGet_append (a b : List (String × String)) (k : String) :
    annGet (a ++ b) k =
      match annGet a k with
      | some v => some v
      | none => annGet b k := by
  induction a with
  | nil => simp [annGet]
  | cons hd t ih =>
    rcases hd with ⟨k1, v1⟩
    rw [List.cons_append, annGet_cons, annGet_cons]
    by_cases h : k1 = k
    · simp [h]
    · simp only [if_neg h]
      exact ih

theorem annGet_eq_none_of_find (a : List (String × String)) (k : String)
    (h : ¬ (a.find? (fun kv => kv.1 == k)).isSome = true) :
    annGet a k = none := by
  simp only [annGet]
  cases hf : a.find? (fun kv => kv.1 == k) with
  | none => rfl
  | some x => rw [hf] at h; simp at h

theorem annGet_mapSet_self (a : List (String × String)) (k v : String)
    (h : (a.find? (fun kv => kv.1 == k)).isSome = true) :
    annGet (a.map (fun kv => if kv.1 == k then (k, v) else kv)) k = some v := by
  induction a with
  | nil => simp at h
  | cons hd t ih =>
    rcases hd with ⟨k1, v1⟩
    by_cases hk : k1 = k
    · have hb : ((k1, v1).1 == k) = true := by simpa using hk
      simp only [List.map_cons, hb, if_true]
      rw [annGet_cons]
      simp
    · have hb : ((k1, v1).1 == k) = false := by simpa using hk
      simp only [List.map_cons, hb, Bool.false_eq_true, if_false]
      rw [annGet_cons]
      simp only [if_neg hk]
      apply ih
      simpa [List.find?, hb] using h

theorem annGet_mapSet_ne (a : List (String × String)) (k v k' : String) (h : k' ≠ k) :
    annGet (a.map (fun kv => if kv.1 == k then (k, v) else kv)) k' = annGet a k' := by
  induction a with
  | nil => simp
  | cons hd t ih =>
    rcases hd with ⟨k1, v1⟩
    by_cases hk : k1 = k
    · have hb : ((k1, v1).1 == k) = true := by simpa using hk
      simp only [List.map_cons, hb, if_true]
      rw [annGet_cons, annGet_cons,
        if_neg (show ¬ k = k' from fun hh => h hh.symm),
        if_neg (show ¬ k1 = k' from fun hh => h (hk.symm.trans hh).symm)]
      exact ih
    · have hb : ((k1, v1).1 == k) = false := by simpa using hk
      simp only [List.map_cons, hb, Bool.false_eq_true, if_false]
      rw [annGet_cons, annGet_cons]
      by_cases he : k1 = k'
      · simp [he]
      · simp only [if_neg he]
        exact ih

theorem annGet_annSet_self (a : List (String × String)) (k v : String) :
    annGet (annSet a k v) k = some v := by
  simp only [annSet]
  by_cases h : (a.find? (fun kv => kv.1 == k)).isSome = true
  · simp only [h, if_true]
    exact annGet_mapSet_self a k v h
  · simp only [h, Bool.false_eq_true, if_false, annGet_append,
      annGet_eq_none_of_find a k h]
    rw [annGet_cons]
    simp

theorem annGet_annSet_ne (a : List (String × String)) (k v k' : String) (h : k' ≠ k) :
    annGet (annSet a k v) k' = annGet a k' := by
  simp only [annSet]
  by_cases hs : (a.find? (fun kv => kv.1 == k)).isSome = true
  · simp only [hs, if_true]
    exact annGet_mapSet_ne a k v k' h
  · simp only [hs, Bool.false_eq_true, if_false, annGet_append]
    cases hg : annGet a k' with
    | some w => rfl
    | none =>
      rw [annGet_cons, if_neg (show ¬ k = k' from fun hh => h hh.symm)]
      rfl

theorem annDel_cons (k1 v1 k : String) (t : List (String × String)) :
    annDel ((k1, v1) :: t) k =
      if k1 = k then annDel t k else (k1, v1) :: annDel t k := by
  by_cases h : k1 = k
  · have hb : (((k1, v1) : String × String).1 != k) = false := by simp [h]
    simp [annDel, List.filter, hb, h]
  · have hb : (((k1, v1) : String × String).1 != k) = true := by simp [h]
    simp [annDel, List.filter, hb, h]

theorem annGet_annDel_self (a : List (String × String)) (k : String) :
    annGet (annDel a k) k = none := by
  induction a with
  | nil => rfl
  | cons hd t ih =>
    rcases hd with ⟨k1, v1⟩
    rw [annDel_cons]
    by_cases hk : k1 = k
    · simpa [hk] using ih
    · simp only [if_neg hk]
      rw [annGet_cons]
      simp only [if_neg hk]
      exact ih

theorem annGet_annDel_ne (a : List (String × String)) (k k' : String) (h : k' ≠ k) :
    annGet (annDel a k) k' = annGet a k' := by
  induction a with
  | nil => rfl
  | cons hd t ih =>
    rcases hd with ⟨k1, v1⟩
    rw [annDel_cons]
    by_cases hk : k1 = k
    · rw [if_pos hk, annGet_cons]
      simp only [if_neg (show ¬ k1 = k' from fun hh => h (hk ▸ hh).symm)]
      exact ih
    · rw [if_neg hk, annGet_cons, annGet_cons]
      by_cases he : k1 = k'
      · simp [he]
      · simp only [if_neg he]
        exact ih

theorem annDel_of_absent (a : List (String × String)) (k : String)
    (h : ∀ kv ∈ a, kv.1 ≠ k) : annDel a k = a := by
  induction a with
  | nil => rfl
  | cons hd t ih =>
    rcases hd with ⟨k1, v1⟩
    rw [annDel_cons]
    rw [if_neg (h (k1, v1) (by simp))]
    rw [ih (fun kv hkv => h kv (by simp [hkv]))]

theorem annGet_none_of_absent (a : List (String × String)) (k : String)
    (h : ∀ kv ∈ a, kv.1 ≠ k) : annGet a k = none := by
  induction a with
  | nil => rfl
  | cons hd t ih =>
    rcases hd with ⟨k1, v1⟩
    rw [annGet_cons]
    simp only [if_neg (h (k1, v1) (by simp))]
    exact ih (fun kv hkv => h kv (by simp [hkv]))

/-- A list map that fixes every element is the identity. -/
theorem map_fix {α : Type} (l : List α) (f : α → α) (h : ∀ x ∈ l, f x = x) :
    l.map f = l := by
  induction l with
  | nil => rfl
  | cons hd t ih =>
    simp only [List.map, h hd (by simp)]
    rw [ih (fun x hx => h x (by simp [hx]))]

/-! ### Port loop lemmas -/

theorem foldl_find_stable (p : Int) (post : List ServicePort) (m : ServicePort)
    (h : ∀ sp ∈ post, sp.port ≠ p) :
    post.foldl (fun acc sp => if sp.port = p then some sp else acc) (some m) = some m := by
  induction post with
  | nil => rfl
  | cons hd t ih =>
    simp only [List.foldl_cons, if_neg (h hd (by simp))]
    exact ih (fun sp hs => h sp (by simp [hs]))

/-- The find loop of tapSvc returns the unique matching entry. -/
theorem findTargetPort_eq (pre post : List ServicePort) (m : ServicePort) (p : Int)
    (hm : m.port = p) (hpost : ∀ sp ∈ post, sp.port ≠ p) :
    findTargetPort (pre ++ m :: post) p = some m := by
  simp only [findTargetPort, List.foldl_append, List.foldl_cons, if_pos hm]
  exact foldl_find_stable p post m hpost

theorem tapSvcSwapPort_skip (t : Int) (sp : ServicePort) (h : sp.port ≠ t) :
    tapSvcSwapPort t sp = sp := by
  simp [tapSvcSwapPort, h]

theorem untapPortsLoop_append (o : IntOrStr) (xs ys : List ServicePort) :
    untapPortsLoop o (xs ++ ys) = untapPortsLoop o xs ++ untapPortsLoop o ys := by
  induction xs with
  | nil => simp [untapPortsLoop]
  | cons hd t ih =>
    simp only [List.cons_append, untapPortsLoop]
    by_cases h : hd.name = kubetapServicePortName
    · simp [h, ih]
    · simp [h, ih]

/-- An entry that is neither the proxy web port nor pointing at the proxy
listen port passes through the untap port loop unchanged. -/
theorem untapPortsLoop_fix (o : IntOrStr) (l : List ServicePort)
    (h : ∀ sp ∈ l, sp.name ≠ kubetapServicePortName ∧
      sp.targetPort.intValue ≠ kubetapProxyListenPort) :
    untapPortsLoop o l = l := by
  induction l with
  | nil => rfl
  | cons hd t ih =>
    obtain ⟨h1, h2⟩ := h hd (by simp)
    simp only [untapPortsLoop, if_neg h1, if_neg h2]
    rw [ih (fun sp hs => h sp (by simp [hs]))]

/-- The restore step of the untapSvc port loop, as a standalone function. -/
def untapRestorePort (orig : IntOrStr) (sp : ServicePort) : ServicePort :=
  if sp.targetPort.intValue = kubetapProxyListenPort then
    { sp with
      name := if sp.name = kubetapPortName then "" else sp.name
      targetPort := orig }
  else sp

/-- The untapSvc port loop is: drop the kubetap-web entries, restore the
rest. -/
theorem untapPortsLoop_eq_filter_map (o : IntOrStr) (l : List ServicePort) :
    untapPortsLoop o l =
      (l.filter (fun sp => sp.name != kubetapServicePortName)).map (untapRestorePort o) := by
  induction l with
  | nil => rfl
  | cons hd t ih =>
    by_cases h : hd.name = kubetapServicePortName
    · have hb : (hd.name != kubetapServicePortName) = false := by simp [h]
      simp [untapPortsLoop, h, List.filter, hb, ih]
    · have hb : (hd.name != kubetapServicePortName) = true := by simp [h]
      simp only [untapPortsLoop, if_neg h, List.filter, hb, List.map_cons, ih, untapRestorePort]

/-- The web entry appended by tapSvc keeps its reserved name through the
swap loop (the swap only renames entries with an empty name). -/
theorem swap_web_name (p : Int) :
    (tapSvcSwapPort p proxySvcPort).name = kubetapServicePortName := by
  by_cases h : proxySvcPort.port = p
  · simp only [tapSvcSwapPort, if_pos h]
    rfl
  · simp only [tapSvcSwapPort, if_neg h]
    rfl

/-- Closed form of a successful tapSvcTransform when the matched entry is
unique: the matched entry is swapped in place, the web entry is appended
(and itself swapped when the tapped port number is the web port number),
everything else is untouched, and the original target is recorded. -/
theorem tapSvcTransform_eq (svc : Service) (p : Int) (pre post : List ServicePort)
    (m : ServicePort)
    (hports : svc.ports = pre ++ m :: post)
    (hm : m.port = p)
    (hpre : ∀ sp ∈ pre, sp.port ≠ p)
    (hpost : ∀ sp ∈ post, sp.port ≠ p)
    (huntapped : annGetD svc.annotations annotationOriginalTargetPort = "") :
    tapSvcTransform svc p = .ok
      { svc with
        annotations := annSet svc.annotations annotationOriginalTargetPort m.targetPort.string
        ports := pre ++
          { m with
            name := if m.name = "" then kubetapPortName else m.name
            targetPort := .int kubetapProxyListenPort } :: (post ++ [tapSvcSwapPort p proxySvcPort]) } := by
  subst hm
  have hfind : findTargetPort svc.ports m.port = some m := by
    rw [hports]; exact findTargetPort_eq pre post m m.port rfl hpost
  simp only [tapSvcTransform, if_neg (show ¬ annGetD svc.annotations annotationOriginalTargetPort ≠ "" by
    rw [huntapped]; exact fun hh => hh rfl), hfind]
  rw [hports]
  have hmap : ((pre ++ m :: post) ++ [proxySvcPort]).map (tapSvcSwapPort m.port) =
      pre ++
        { m with
          name := if m.name = "" then kubetapPortName else m.name
          targetPort := .int kubetapProxyListenPort } ::
          (post ++ [tapSvcSwapPort m.port proxySvcPort]) := by
    rw [List.map_append, List.map_append, List.map_cons,
      map_fix pre (tapSvcSwapPort m.port) (fun sp hs => tapSvcSwapPort_skip m.port sp (hpre sp hs)),
      map_fix post (tapSvcSwapPort m.port) (fun sp hs => tapSvcSwapPort_skip m.port sp (hpost sp hs))]
    simp only [tapSvcSwapPort, if_pos rfl, eq_self_iff_true, if_true, List.map_cons,
      List.map_nil, List.cons_append, List.append_assoc, List.nil_append]
  rw [hmap]

/-! ### Claim C1: tap then untap round trip -/

/-- C1 (amended): for a Service that is not currently tapped, whose port
list contains the requested port exactly once, where no other entry's
target port has integer value 7777, no entry carries the reserved
kubetap-web name, the matched entry is not named kubetap-listen, and the
matched entry's target port survives the String/Parse round trip (true
for any int32 target and for any name that is not a bare integer),
tapSvc followed immediately by untapSvc restores the port list exactly and
the annotation map observationally, with the original-target-port
annotation fully removed; a numeric original target is restored as
numeric because untapSvc uses intstr.Parse. -/
theorem c1_tap_untap_round_trip
    (svc svc' : Service) (p : Int) (pre post : List ServicePort) (m : ServicePort)
    (hports : svc.ports = pre ++ m :: post)
    (hm : m.port = p)
    (hpre : ∀ sp ∈ pre, sp.port ≠ p)
    (hpost : ∀ sp ∈ post, sp.port ≠ p)
    (huntapped : annGetD svc.annotations annotationOriginalTargetPort = "")
    (hno7777 : ∀ sp ∈ pre ++ post, sp.targetPort.intValue ≠ kubetapProxyListenPort)
    (hnoweb : ∀ sp ∈ svc.ports, sp.name ≠ kubetapServicePortName)
    (hnolisten : m.name ≠ kubetapPortName)
    (hparse : intstrParse m.targetPort.string = m.targetPort)
    (htap : tapSvcTransform svc p = .ok svc') :
    (untapSvcTransform svc').ports = svc.ports ∧
    annsEquiv (untapSvcTransform svc').annotations svc.annotations ∧
    annGet (untapSvcTransform svc').annotations annotationOriginalTargetPort = none := by
  subst hm
  have h1 := tapSvcTransform_eq svc m.port pre post m hports rfl hpre hpost huntapped
  have h2 := h1.symm.trans htap
  injection h2 with h2'
  subst h2'
  have hmm : m ∈ svc.ports := by
    rw [hports]; exact List.mem_append_right _ (List.mem_cons_self _ _)
  have hfixpre : untapPortsLoop m.targetPort pre = pre :=
    untapPortsLoop_fix _ _ (fun sp hs =>
      ⟨hnoweb sp (by rw [hports]; exact List.mem_append_left _ hs),
       hno7777 sp (List.mem_append_left _ hs)⟩)
  have hfixpost : untapPortsLoop m.targetPort post = post :=
    untapPortsLoop_fix _ _ (fun sp hs =>
      ⟨hnoweb sp (by rw [hports]; exact List.mem_append_right _ (List.mem_cons_of_mem _ hs)),
       hno7777 sp (List.mem_append_right _ hs)⟩)
  have horig : annGetD
      (annSet svc.annotations annotationOriginalTargetPort m.targetPort.string)
      annotationOriginalTargetPort = m.targetPort.string := by
    simp [annGetD, annGet_annSet_self]
  refine ⟨?_, ?_, ?_⟩
  · show untapPortsLoop
      (intstrParse (annGetD
        (annSet svc.annotations annotationOriginalTargetPort m.targetPort.string)
        annotationOriginalTargetPort))
      (pre ++
        { m with
          name := if m.name = "" then kubetapPortName else m.name
          targetPort := .int kubetapProxyListenPort } ::
          (post ++ [tapSvcSwapPort m.port proxySvcPort])) = svc.ports
    rw [horig, hparse, untapPortsLoop_append, hfixpre]
    have hswapname :
        (if m.name = "" then kubetapPortName else m.name) ≠ kubetapServicePortName := by
      by_cases hmn : m.name = ""
      · simp only [hmn, if_pos rfl]
        decide
      · simp only [if_neg hmn]
        exact hnoweb m hmm
    simp only [untapPortsLoop, if_neg hswapname]
    rw [untapPortsLoop_append, hfixpost]
    have hwebdrop : untapPortsLoop m.targetPort [tapSvcSwapPort m.port proxySvcPort] = [] := by
      simp only [untapPortsLoop, if_pos (swap_web_name m.port)]
    rw [hwebdrop, List.append_nil]
    have hintval : (IntOrStr.int kubetapProxyListenPort).intValue = kubetapProxyListenPort := rfl
    simp only [hintval, if_pos rfl]
    have hname : (if (if m.name = "" then kubetapPortName else m.name) = kubetapPortName
        then "" else (if m.name = "" then kubetapPortName else m.name)) = m.name := by
      by_cases hmn : m.name = ""
      · simp [hmn]
      · simp only [if_neg hmn, if_neg hnolisten]
    rw [hports]
    simp only [hname, if_true]
  · intro k
    by_cases hk : k = annotationOriginalTargetPort
    · rw [hk]
      show annGetD (annDel
        (annSet svc.annotations annotationOriginalTargetPort m.targetPort.string)
        annotationOriginalTargetPort) annotationOriginalTargetPort =
        annGetD svc.annotations annotationOriginalTargetPort
      rw [huntapped]
      simp [annGetD, annGet_annDel_self]
    · show annGetD (annDel
        (annSet svc.annotations annotationOriginalTargetPort m.targetPort.string)
          annotationOriginalTargetPort) k = annGetD svc.annotations k
      simp only [annGetD, annGet_annDel_ne _ _ _ hk, annGet_annSet_ne _ _ _ _ hk]
  · show annGet (annDel
      (annSet svc.annotations annotationOriginalTargetPort m.targetPort.string)
        annotationOriginalTargetPort) annotationOriginalTargetPort = none
    exact annGet_annDel_self _ _

/-- The spec scenario Service: port 80 targeting 8080, one unrelated
annotation. -/
def c1WitnessSvc : Service :=
  { name := r"sample-service"
    ns := r"default"
    annotations := [(r"team", r"x")]
    selector := [(r"app", r"myapp")]
    ports := [{ name := r"", port := 80, targetPort := .int 8080 }] }

/-- The result of tapping c1WitnessSvc at port 80. -/
def c1WitnessTapped : Service :=
  { name := r"sample-service"
    ns := r"default"
    annotations := [(r"team", r"x"), (annotationOriginalTargetPort, r"8080")]
    selector := [(r"app", r"myapp")]
    ports := [{ name := kubetapPortName, port := 80, targetPort := .int 7777 },
              { name := kubetapServicePortName, port := 2244, targetPort := .int 2244 }] }

/-- Witness for C1 at the spec scenario fixture. -/
theorem c1_tap_untap_round_trip_witness :
    (untapSvcTransform c1WitnessTapped).ports = c1WitnessSvc.ports ∧
    annsEquiv (untapSvcTransform c1WitnessTapped).annotations c1WitnessSvc.annotations ∧
    annGet (untapSvcTransform c1WitnessTapped).annotations annotationOriginalTargetPort = none :=
  c1_tap_untap_round_trip c1WitnessSvc c1WitnessTapped 80 [] []
    { name := r"", port := 80, targetPort := .int 8080 }
    rfl rfl (by simp) (by simp) (by decide) (by simp) (by decide) (by decide) (by decide)
    (by decide)

/-- A Service whose second port legitimately targets 7777, the proxy listen
port. -/
def c1CexSvc : Service :=
  { name := r"svc"
    ns := r"default"
    annotations := []
    selector := [(r"app", r"a")]
    ports := [{ name := r"a", port := 80, targetPort := .int 8080 },
              { name := r"b", port := 81, targetPort := .int 7777 }] }

/-- C1 counterexample: the claim quantifies over every untapped Service
containing the requested port, but tapping c1CexSvc at port 80 and
immediately untapping rewrites the unrelated port 81 entry (which targets
7777) to the recorded original 8080: the round trip does not restore the
port list. -/
theorem c1_counterexample :
    (tapSvcTransform c1CexSvc 80).map untapSvcTransform ≠ .ok c1CexSvc ∧
    (tapSvcTransform c1CexSvc 80).map (fun s => (untapSvcTransform s).ports) =
      .ok [{ name := r"a", port := 80, targetPort := .int 8080 },
           { name := r"b", port := 81, targetPort := .int 8080 }] := by
  decide

/-! ### Claim C10: frame properties of the port swap -/

/-- C10 (amended): tapSvcTransform, on a Service where the requested port
matches exactly one entry, rewrites only that entry (assigning the
reserved listen-port name only when the entry had no name), appends one
kubetap-web entry at the end, records only the original-target-port
annotation and preserves every other annotation (a nil map is treated as
empty) and every other port entry in place; untapSvcTransform, on any
Service, removes exactly the kubetap-web entries, restores every entry
whose target resolves to the proxy listen port 7777 to the parsed
original (stripping the synthetic listen-port name), leaves every other
port entry in relative order and untouched, and removes only the
original-target-port annotation. -/
theorem c10_port_swap_frame
    (svc svc' : Service) (p : Int) (pre post : List ServicePort) (m : ServicePort)
    (u : Service)
    (hports : svc.ports = pre ++ m :: post)
    (hm : m.port = p)
    (hpre : ∀ sp ∈ pre, sp.port ≠ p)
    (hpost : ∀ sp ∈ post, sp.port ≠ p)
    (huntapped : annGetD svc.annotations annotationOriginalTargetPort = "")
    (htap : tapSvcTransform svc p = .ok svc') :
    (svc'.ports = pre ++
        { m with
          name := if m.name = "" then kubetapPortName else m.name
          targetPort := .int kubetapProxyListenPort } ::
          (post ++ [tapSvcSwapPort p proxySvcPort])
      ∧ annGet svc'.annotations annotationOriginalTargetPort = some m.targetPort.string
      ∧ (∀ k, k ≠ annotationOriginalTargetPort →
          annGetD svc'.annotations k = annGetD svc.annotations k))
    ∧ ((untapSvcTransform u).ports =
        (u.ports.filter (fun sp => sp.name != kubetapServicePortName)).map
          (untapRestorePort (intstrParse (annGetD u.annotations annotationOriginalTargetPort)))
      ∧ annGet (untapSvcTransform u).annotations annotationOriginalTargetPort = none
      ∧ (∀ k, k ≠ annotationOriginalTargetPort →
          annGetD (untapSvcTransform u).annotations k = annGetD u.annotations k)
      ∧ (∀ sp ∈ u.ports, sp.name ≠ kubetapServicePortName →
          sp.targetPort.intValue ≠ kubetapProxyListenPort →
          sp ∈ (untapSvcTransform u).ports)) := by
  subst hm
  have h1 := tapSvcTransform_eq svc m.port pre post m hports rfl hpre hpost huntapped
  have h2 := h1.symm.trans htap
  injection h2 with h2'
  subst h2'
  refine ⟨⟨rfl, ?_, ?_⟩, ?_, ?_, ?_, ?_⟩
  · exact annGet_annSet_self _ _ _
  · intro k hk
    show annGetD (annSet svc.annotations annotationOriginalTargetPort m.targetPort.string) k =
      annGetD svc.annotations k
    simp only [annGetD, annGet_annSet_ne _ _ _ _ hk]
  · exact untapPortsLoop_eq_filter_map _ _
  · exact annGet_annDel_self _ _
  · intro k hk
    show annGetD (annDel u.annotations annotationOriginalTargetPort) k = annGetD u.annotations k
    simp only [annGetD, annGet_annDel_ne _ _ _ hk]
  · intro sp hsp hname hval
    show sp ∈ untapPortsLoop
      (intstrParse (annGetD u.annotations annotationOriginalTargetPort)) u.ports
    rw [untapPortsLoop_eq_filter_map]
    refine List.mem_map.mpr ⟨sp, ?_, ?_⟩
    · refine List.mem_filter.mpr ⟨hsp, ?_⟩
      simpa using hname
    · simp [untapRestorePort, hval]

/-- Witness for C10 at the spec scenario fixture (tap half) and the tapped
fixture (untap half). -/
theorem c10_port_swap_frame_witness :
    (c1WitnessTapped.ports = [] ++
        { name := if (r"" : String) = "" then kubetapPortName else r""
          port := 80
          targetPort := .int kubetapProxyListenPort } ::
          ([] ++ [tapSvcSwapPort 80 proxySvcPort])
      ∧ annGet c1WitnessTapped.annotations annotationOriginalTargetPort =
          some (IntOrStr.string (.int 8080))
      ∧ (∀ k, k ≠ annotationOriginalTargetPort →
          annGetD c1WitnessTapped.annotations k = annGetD c1WitnessSvc.annotations k))
    ∧ ((untapSvcTransform c1WitnessTapped).ports =
        (c1WitnessTapped.ports.filter (fun sp => sp.name != kubetapServicePortName)).map
          (untapRestorePort (intstrParse
            (annGetD c1WitnessTapped.annotations annotationOriginalTargetPort)))
      ∧ annGet (untapSvcTransform c1WitnessTapped).annotations annotationOriginalTargetPort = none
      ∧ (∀ k, k ≠ annotationOriginalTargetPort →
          annGetD (untapSvcTransform c1WitnessTapped).annotations k =
            annGetD c1WitnessTapped.annotations k)
      ∧ (∀ sp ∈ c1WitnessTapped.ports, sp.name ≠ kubetapServicePortName →
          sp.targetPort.intValue ≠ kubetapProxyListenPort →
          sp ∈ (untapSvcTransform c1WitnessTapped).ports)) :=
  c10_port_swap_frame c1WitnessSvc c1WitnessTapped 80 [] []
    { name := r"", port := 80, targetPort := .int 8080 }
    c1WitnessTapped rfl rfl (by simp) (by simp) (by decide) (by decide)

/-- C10 counterexample: the claim says untapSvc leaves every port entry
other than the removed kubetap-web entry unchanged, but on a tapped
Service the entry targeting the proxy listen port is rewritten (renamed
and retargeted): the kubetap-listen entry of c1WitnessTapped is not among
the output ports. -/
theorem c10_counterexample :
    ({ name := kubetapPortName, port := 80, targetPort := .int 7777 } : ServicePort)
        ∈ c1WitnessTapped.ports
    ∧ ¬ ({ name := kubetapPortName, port := 80, targetPort := .int 7777 } : ServicePort)
        ∈ (untapSvcTransform c1WitnessTapped).ports
    ∧ (untapSvcTransform c1WitnessTapped).ports =
        [{ name := r"", port := 80, targetPort := .int 8080 }] := by
  decide

/-! ### Claim C5: Deployment resolution by selectors -/

/-- C5: deploymentFromSelectors fails SelectorsMissing on an empty selector
map; otherwise it filters the Deployments by the AND of all selector
pairs (exact match per key, the pairs being joined into the single label
query string selectorQuery builds) and demands exactly one survivor:
none is SelectorNoMatch, two or more is SelectorMultiMatch. -/
theorem c5_selector_resolution (dpls : List Deployment) (selectors : List (String × String)) :
    (selectors = [] → deploymentFromSelectors dpls selectors = .error .SelectorsMissing)
    ∧ (∀ d, d ∈ dpls.filter (fun x => matchesSelectors x.labels selectors) ↔
        (d ∈ dpls ∧ ∀ kv ∈ selectors, annGet d.labels kv.1 = some kv.2))
    ∧ (selectors ≠ [] →
        ((dpls.filter (fun x => matchesSelectors x.labels selectors) = [] →
            deploymentFromSelectors dpls selectors = .error .ServiceSelectorNoMatch)
          ∧ (∀ d, dpls.filter (fun x => matchesSelectors x.labels selectors) = [d] →
            deploymentFromSelectors dpls selectors = .ok d)
          ∧ (∀ d1 d2 rest,
              dpls.filter (fun x => matchesSelectors x.labels selectors) = d1 :: d2 :: rest →
            deploymentFromSelectors dpls selectors = .error .ServiceSelectorMultiMatch))) := by
  refine ⟨?_, ?_, ?_⟩
  · intro h
    subst h
    rfl
  · intro d
    simp [List.mem_filter, matchesSelectors, List.all_eq_true]
  · intro hne
    obtain ⟨s0, srest, rfl⟩ := List.exists_cons_of_ne_nil hne
    refine ⟨?_, ?_, ?_⟩
    · intro hfil
      simp only [deploymentFromSelectors, hfil]
    · intro d hfil
      simp only [deploymentFromSelectors, hfil]
    · intro d1 d2 rest hfil
      simp only [deploymentFromSelectors, hfil]

def c5Dpl : Deployment :=
  { name := r"sample-deployment"
    ns := r"default"
    labels := [(r"app", r"myapp")]
    template := { annotations := [], containers := [], volumes := [] } }

/-- Witness for C5: one matching Deployment is returned. -/
theorem c5_selector_resolution_witness :
    deploymentFromSelectors [c5Dpl] [(r"app", r"myapp")] = .ok c5Dpl :=
  ((c5_selector_resolution [c5Dpl] [(r"app", r"myapp")]).2.2 (by decide)).2.1 c5Dpl (by decide)

/-! ### Claim C6: upstream port resolution -/

theorem resolveUpstreamLoop_skip (dpls : List Deployment) (sel : List (String × String))
    (p : Int) (l rest : List ServicePort) (acc : String)
    (h : ∀ sp ∈ l, sp.port ≠ p) :
    resolveUpstreamLoop dpls sel p (l ++ rest) acc = resolveUpstreamLoop dpls sel p rest acc := by
  induction l with
  | nil => rfl
  | cons hd t ih =>
    simp only [List.cons_append, resolveUpstreamLoop, if_pos (h hd (by simp))]
    exact ih (fun sp hs => h sp (by simp [hs]))

/-- C6: with a unique matching Service port, a numeric target port is used
directly as the upstream port (for every Deployment list: no Deployment
lookup takes place), while a named target port is resolved by locating
the backing Deployment and scanning its container ports for the name,
failing DeploymentMissingPorts when nothing matches. -/
theorem c6_upstream_port_resolution
    (dpls : List Deployment) (svc : Service) (p : Int) (pre post : List ServicePort)
    (m : ServicePort)
    (hports : svc.ports = pre ++ m :: post)
    (hm : m.port = p)
    (hpre : ∀ sp ∈ pre, sp.port ≠ p)
    (hpost : ∀ sp ∈ post, sp.port ≠ p) :
    (∀ n, m.targetPort = .int n →
      ∀ dpls2, resolveUpstreamPort dpls2 svc p = .ok (toString n))
    ∧ (∀ nm d, m.targetPort = .str nm →
        deploymentFromSelectors dpls svc.selector = .ok d →
        ((containerPortByName d.template.containers nm (r"") = "" →
            resolveUpstreamPort dpls svc p = .error .DeploymentMissingPorts)
          ∧ (∀ v, containerPortByName d.template.containers nm (r"") = v → v ≠ "" →
            resolveUpstreamPort dpls svc p = .ok v))) := by
  subst hm
  have hnn : ¬ m.port ≠ m.port := fun hh => hh rfl
  constructor
  · intro n hint dpls2
    show resolveUpstreamLoop dpls2 svc.selector m.port svc.ports (r"") = .ok (toString n)
    rw [hports, resolveUpstreamLoop_skip dpls2 svc.selector m.port pre _ _ hpre]
    simp only [resolveUpstreamLoop, if_neg hnn, hint]
    rw [show (post : List ServicePort) = post ++ [] by simp,
      resolveUpstreamLoop_skip dpls2 svc.selector m.port post _ _ hpost]
    rfl
  · intro nm d hstr hsel
    constructor
    · intro hempty
      show resolveUpstreamLoop dpls svc.selector m.port svc.ports (r"") =
        .error .DeploymentMissingPorts
      rw [hports, resolveUpstreamLoop_skip dpls svc.selector m.port pre _ _ hpre]
      simp only [resolveUpstreamLoop, if_neg hnn, hstr, hsel, hempty, if_pos rfl,
        eq_self_iff_true, if_true]
    · intro v hv hvne
      show resolveUpstreamLoop dpls svc.selector m.port svc.ports (r"") = .ok v
      rw [hports, resolveUpstreamLoop_skip dpls svc.selector m.port pre _ _ hpre]
      simp only [resolveUpstreamLoop, if_neg hnn, hstr, hsel, hv, if_neg hvne]
      rw [show (post : List ServicePort) = post ++ [] by simp,
        resolveUpstreamLoop_skip dpls svc.selector m.port post _ _ hpost]
      rfl

def c6Container : Container :=
  { name := r"app"
    image := r"nginx"
    args := []
    imagePullPolicy := r""
    ports := [{ name := r"http", containerPort := 8080 }]
    readinessProbe := none
    volumeMounts := [] }

def c6Dpl : Deployment :=
  { name := r"sample-deployment"
    ns := r"default"
    labels := [(r"app", r"myapp")]
    template := { annotations := [], containers := [c6Container], volumes := [] } }

def c6Svc : Service :=
  { name := r"sample-service"
    ns := r"default"
    annotations := []
    selector := [(r"app", r"myapp")]
    ports := [{ name := r"", port := 80, targetPort := .str (r"http") }] }

/-- Witness for C6: a named target port resolves through the Deployment
container port of the same name. -/
theorem c6_upstream_port_resolution_witness :
    resolveUpstreamPort [c6Dpl] c6Svc 80 = .ok (r"8080") :=
  (((c6_upstream_port_resolution [c6Dpl] c6Svc 80 [] []
      { name := r"", port := 80, targetPort := .str (r"http") }
      rfl rfl (by simp) (by simp)).2 (r"http") c6Dpl rfl (by decide)).2
    (r"8080") (by decide) (by decide))

/-! ### Claim C7: sidecar injection -/

/-- C7 (amended): a single attempt of the sidecar-injection closure appends
exactly one container (the sidecar, which Mitmproxy.Sidecar names with
the reserved identifier and equips with the ConfigMap-backed mount named
from the deployment) and exactly two volumes (the ConfigMap volume named
from the deployment and the emptyDir data volume), leaves every
pre-existing container and volume in place, and sets only the tapped
pod-template annotation. There is no ServiceTapped guard at the injection
site (already-tapped detection happens earlier, on the Service
annotation), and a conflict retry re-runs the closure on its own output,
so the exactly-once property holds per attempt, not across retries. -/
theorem c7_sidecar_injection (dpl : Deployment) (sidecar : Container) :
    (tapDplAttempt dpl sidecar).template.containers = dpl.template.containers ++ [sidecar]
    ∧ (tapDplAttempt dpl sidecar).template.containers.take dpl.template.containers.length =
        dpl.template.containers
    ∧ (tapDplAttempt dpl sidecar).template.volumes = dpl.template.volumes ++
        [{ name := kubetapConfigMapPrefixStr ++ dpl.name
           source := .configMap (kubetapConfigMapPrefixStr ++ dpl.name) },
         { name := mitmproxyDataVolName, source := .emptyDir }]
    ∧ (tapDplAttempt dpl sidecar).template.volumes.take dpl.template.volumes.length =
        dpl.template.volumes
    ∧ (tapDplAttempt dpl sidecar).template.annotations =
        annSet dpl.template.annotations annotationIsTapped dpl.name
    ∧ (∀ dn, (Mitmproxy.Sidecar dn).name = kubetapContainerName)
    ∧ (∀ dn, (Mitmproxy.Sidecar dn).volumeMounts.map (fun vm => vm.name) =
        [kubetapConfigMapPrefixStr ++ dn, mitmproxyDataVolName]) := by
  refine ⟨rfl, ?_, rfl, ?_, rfl, fun dn => rfl, fun dn => rfl⟩
  · show (dpl.template.containers ++ [sidecar]).take dpl.template.containers.length =
      dpl.template.containers
    exact List.take_left dpl.template.containers [sidecar]
  · show (dpl.template.volumes ++ _).take dpl.template.volumes.length = dpl.template.volumes
    exact List.take_left dpl.template.volumes _

def c7Container : Container :=
  { name := r"app"
    image := r"i"
    args := []
    imagePullPolicy := r""
    ports := []
    readinessProbe := none
    volumeMounts := [] }

def c7Dpl : Deployment :=
  { name := r"d"
    ns := r"default"
    labels := [(r"app", r"a")]
    template := { annotations := [], containers := [c7Container], volumes := [] } }

def c7Cluster : Cluster :=
  { namespaces := [r"default"], services := [], deployments := [c7Dpl], configMaps := [] }

/-- C7 counterexample: the claim requires the exactly-one-container
property to hold across conflict-retry iterations (no double injection),
but with a single conflicted attempt followed by a successful one the
update loop stores a Deployment carrying the sidecar twice, because the
closure appends to the captured Deployment instead of re-fetching. -/
theorem c7_counterexample :
    (tapDplLoop (Mitmproxy.Sidecar (r"d")) defaultRetrySteps c7Cluster c7Dpl [true]).1 = .ok ()
    ∧ ((tapDplLoop (Mitmproxy.Sidecar (r"d")) defaultRetrySteps c7Cluster c7Dpl
        [true]).2.deployments.map
          (fun d => (d.template.containers.filter
            (fun ct => ct.name == kubetapContainerName)).length)) = [2] := by
  decide

/-! ### Claim C8: ConfigMap creation -/

/-- C8: createMitmproxyConfigMap builds the payload as the fixed base text
plus exactly one mode line whose scheme is https when the original
endpoint used TLS and http otherwise, embedding the resolved upstream
port; any mode other than reverse fails before any cluster call (the
result does not depend on the client and the state is unchanged); and the
echoed payload must match the submitted byte length, anything else
failing CreateResourceMismatch. -/
theorem c8_configmap_create {σ : Type} (client client2 : ConfigMapClient σ) (s : σ)
    (opts : ProxyOptions) :
    (opts.mode = "reverse" → mitmproxyConfigPayload opts = .ok (mitmproxyBaseConfig ++
        ((if opts.upstreamHTTPS then "mode: reverse:https://127.0.0.1:"
          else "mode: reverse:http://127.0.0.1:") ++ opts.upstreamPort)))
    ∧ (opts.mode ≠ "reverse" → ∀ pl, mitmproxyConfigPayload opts ≠ .ok pl)
    ∧ (∀ e, mitmproxyConfigPayload opts = .error e →
        createMitmproxyConfigMap client s opts = (.error e, s)
        ∧ createMitmproxyConfigMap client s opts = createMitmproxyConfigMap client2 s opts)
    ∧ (∀ payload ccm s2 bd,
        mitmproxyConfigPayload opts = .ok payload →
        payload.utf8ByteSize ≠ 0 →
        client.create s (builtConfigMap opts payload) = (.ok ccm, s2) →
        ccm.binaryData = some bd →
        (((annGetD bd mitmproxyConfigFile).utf8ByteSize ≠ payload.utf8ByteSize →
            createMitmproxyConfigMap client s opts = (.error .CreateResourceMismatch, s2))
          ∧ ((annGetD bd mitmproxyConfigFile).utf8ByteSize = payload.utf8ByteSize →
            createMitmproxyConfigMap client s opts = (.ok (), s2)))) := by
  refine ⟨?_, ?_, ?_, ?_⟩
  · intro hmode
    simp only [mitmproxyConfigPayload, hmode]
    by_cases hh : opts.upstreamHTTPS
    · simp [hh, String.append_assoc]
    · simp [hh, String.append_assoc]
  · intro hmode pl
    simp only [mitmproxyConfigPayload]
    split
    · exact absurd (by assumption) hmode
    · exact fun hh => by cases hh
    · exact fun hh => by cases hh
    · exact fun hh => by cases hh
    · exact fun hh => by cases hh
    · exact fun hh => by cases hh
  · intro e herr
    constructor
    · simp only [createMitmproxyConfigMap, herr]
    · simp only [createMitmproxyConfigMap, herr]
  · intro payload ccm s2 bd hpay hlen hcreate hbd
    simp only [createMitmproxyConfigMap, hpay, if_neg hlen, hcreate, hbd]
    constructor
    · intro hne
      simp only [if_pos hne]
    · intro heq
      simp only [heq, if_neg (fun hh : payload.utf8ByteSize ≠ payload.utf8ByteSize => hh rfl)]

def c8UnitClient : ConfigMapClient Unit :=
  { create := fun _ cm => (.ok cm, ())
    list := fun _ => []
    delete := fun _ _ => (.ok (), ()) }

def c8TestOpts : ProxyOptions :=
  { target := r"sample-service"
    protocol := r"http"
    upstreamHTTPS := false
    upstreamPort := r"8080"
    mode := "reverse"
    ns := r"default"
    image := r""
    dplName := r"sample-deployment" }

def c8Payload : String :=
  mitmproxyBaseConfig ++ (r"mode: reverse:http://127.0.0.1:") ++ (r"8080")

/-- Witness for C8: against an echoing client the create succeeds, the
echoed byte length matching the submitted one. -/
theorem c8_configmap_create_witness :
    createMitmproxyConfigMap c8UnitClient () c8TestOpts = (.ok (), ()) :=
  ((c8_configmap_create c8UnitClient c8UnitClient () c8TestOpts).2.2.2
    c8Payload (builtConfigMap c8TestOpts c8Payload) ()
    [(mitmproxyConfigFile, c8Payload)]
    (by decide) (by decide) rfl rfl).2 rfl

/-! ### Claim C2: tap on an already-tapped Service -/

/-- C2: when the fetched Service already carries a non-empty
original-target-port annotation, NewTapCommand fails with ServiceTapped
and the cluster is returned unchanged: no ConfigMap is created, no
sidecar is injected, and the Service keeps its ports and annotations. -/
theorem c2_tap_already_tapped
    (c : Cluster) (a : TapArgs) (sched : TapSched) (svc : Service) (ns : String)
    (hns : (if a.ns = "" then "default" else a.ns) = ns)
    (hport : a.targetSvcPort ≠ 0)
    (hproto : a.protocol = "http")
    (hhas : hasNamespace c ns = true)
    (hget : getService c ns a.targetSvcName = some svc)
    (htapped : annGetD svc.annotations annotationOriginalTargetPort ≠ "") :
    NewTapCommand c a sched = (.error .ServiceTapped, c) := by
  simp only [NewTapCommand, hns, if_neg hport, hhas, hproto, hget, htapped]
  simp
  exact fun h => absurd h htapped

/-- The spec scenario cluster with its Service already tapped. -/
def c2Cluster : Cluster :=
  { namespaces := [r"default"]
    services := [c1WitnessTapped]
    deployments := [c5Dpl]
    configMaps := [] }

def c2Args : TapArgs :=
  { targetSvcName := r"sample-service"
    protocol := r"http"
    targetSvcPort := 80
    ns := r"default"
    image := defaultImageHTTP
    https := false
    commandArgs := [] }

def c2Sched : TapSched := { dpl := [], svc := [], rollback := { dpl := [], svc := [] } }

/-- Witness for C2 at the tapped fixture. -/
theorem c2_tap_already_tapped_witness :
    NewTapCommand c2Cluster c2Args c2Sched = (.error .ServiceTapped, c2Cluster) :=
  c2_tap_already_tapped c2Cluster c2Args c2Sched c1WitnessTapped (r"default")
    (by decide) (by decide) rfl (by decide) (by decide) (by decide)

/-! ### Claim C3: untap on an already-untapped target -/

/-- Removing the sidecar from a Deployment that has no kubetap container,
no kubetap-prefixed volume and no tapped annotation changes nothing. -/
theorem untapDplTransform_fix (d : Deployment)
    (hnosc : ∀ ct ∈ d.template.containers, ct.name ≠ kubetapContainerName)
    (hnovol : ∀ v ∈ d.template.volumes, ¬ v.name.startsWith kubetapStr = true)
    (hann : ∀ kv ∈ d.template.annotations, kv.1 ≠ annotationIsTapped) :
    untapDplTransform d = d := by
  simp only [untapDplTransform]
  rw [List.filter_eq_self.mpr (fun ct hct => by simpa using hnosc ct hct),
    List.filter_eq_self.mpr (fun v hv => by simpa using hnovol v hv),
    annDel_of_absent _ _ hann]

/-- untapSvc on a Service with no bookkeeping annotation, no kubetap-web
entry and no entry targeting the proxy listen port changes nothing. -/
theorem untapSvcTransform_fix (svc : Service)
    (hnoann : ∀ kv ∈ svc.annotations, kv.1 ≠ annotationOriginalTargetPort)
    (hnoweb : ∀ sp ∈ svc.ports, sp.name ≠ kubetapServicePortName)
    (hno7777 : ∀ sp ∈ svc.ports, sp.targetPort.intValue ≠ kubetapProxyListenPort) :
    untapSvcTransform svc = svc := by
  simp only [untapSvcTransform]
  rw [untapPortsLoop_fix _ _ (fun sp hs => ⟨hnoweb sp hs, hno7777 sp hs⟩),
    annDel_of_absent _ _ hnoann]

/-- Writing back an unchanged Deployment whose key is unique leaves the
cluster unchanged. -/
theorem updateDeployment_id (c : Cluster) (d : Deployment)
    (huniq : ∀ x ∈ c.deployments, x.ns = d.ns → x.name = d.name → x = d) :
    updateDeployment c d = c := by
  have hmap : c.deployments.map (fun x => if x.ns = d.ns ∧ x.name = d.name then d else x) =
      c.deployments :=
    map_fix _ _ (fun x hx => by
      by_cases h : x.ns = d.ns ∧ x.name = d.name
      · rw [if_pos h]; exact (huniq x hx h.1 h.2).symm
      · rw [if_neg h])
  simp only [updateDeployment, hmap]

/-- Writing back an unchanged Service whose key is unique leaves the
cluster unchanged. -/
theorem updateService_id (c : Cluster) (svc : Service)
    (huniq : ∀ x ∈ c.services, x.ns = svc.ns → x.name = svc.name → x = svc) :
    updateService c svc = c := by
  have hmap : c.services.map (fun x => if x.ns = svc.ns ∧ x.name = svc.name then svc else x) =
      c.services :=
    map_fix _ _ (fun x hx => by
      by_cases h : x.ns = svc.ns ∧ x.name = svc.name
      · rw [if_pos h]; exact (huniq x hx h.1 h.2).symm
      · rw [if_neg h])
  simp only [updateService, hmap]

/-- When no ConfigMap in the namespace carries the proxy-config annotation
for this deployment, the destroy call reports ConfigMapNoMatch and leaves
the cluster unchanged. -/
theorem destroyMitmproxyConfigMap_noMatch (c : Cluster) (ns dplName : String)
    (hname : dplName ≠ "")
    (hnocm : ∀ cm ∈ configMapsIn c ns, (cm.annotations.any (fun kv =>
        kv.1 == annotationConfigMap && kv.2 == configMapAnnotationPrefixStr ++ dplName)) = false) :
    destroyMitmproxyConfigMap (clusterCMClient ns) c dplName = (.error .ConfigMapNoMatch, c) := by
  simp only [destroyMitmproxyConfigMap, if_neg hname, clusterCMClient]
  have hfil : (configMapsIn c ns).filter (fun cm => cm.annotations.any (fun kv =>
      kv.1 == annotationConfigMap && kv.2 == configMapAnnotationPrefixStr ++ dplName)) = [] :=
    List.filter_eq_nil_iff.mpr (fun cm hcm => by simp [hnocm cm hcm])
  rw [hfil]
  rfl

/-- One conflict-free attempt of the untap Deployment loop. -/
theorem untapDplLoop_succ_nosched (ns dplName : String) (n : Nat) (c : Cluster) (d : Deployment)
    (hgd : getDeployment c ns dplName = some d) :
    untapDplLoop ns dplName (n + 1) c [] = (.ok (), updateDeployment c (untapDplTransform d)) := by
  simp only [untapDplLoop, hgd]

/-- One conflict-free attempt of a Service update loop. -/
theorem svcUpdateLoop_succ_nosched (transform : Service → Except Err Service)
    (ns svcName : String) (n : Nat) (c : Cluster) (svc svc2 : Service)
    (hget : getService c ns svcName = some svc) (ht : transform svc = .ok svc2) :
    svcUpdateLoop transform ns svcName (n + 1) c [] = (.ok (), updateService c svc2) := by
  simp only [svcUpdateLoop, hget, ht]

/-- C3 (amended): untap on an already-untapped target (no bookkeeping
annotation, no kubetap-web port entry, no entry targeting the proxy
listen port, no sidecar container, no kubetap-prefixed volume, no tapped
pod-template annotation, no matching ConfigMap) succeeds and is a
complete no-op: the cluster, and in particular the Service port list and
annotation set, are returned unchanged. -/
theorem c3_untap_untapped_noop
    (c : Cluster) (a : UntapArgs) (sched : UntapSched) (svc : Service) (dpl : Deployment)
    (ns : String)
    (hns : (if a.ns = "" then "default" else a.ns) = ns)
    (hhas : hasNamespace c ns = true)
    (hget : getService c ns a.targetSvcName = some svc)
    (hsel : deploymentFromSelectors (deploymentsIn c ns) svc.selector = .ok dpl)
    (hdplns : dpl.ns = ns)
    (hdplname : dpl.name ≠ "")
    (hnocm : ∀ cm ∈ configMapsIn c ns, (cm.annotations.any (fun kv =>
        kv.1 == annotationConfigMap && kv.2 == configMapAnnotationPrefixStr ++ dpl.name)) = false)
    (hgd : getDeployment c ns dpl.name = some dpl)
    (hnosc : ∀ ct ∈ dpl.template.containers, ct.name ≠ kubetapContainerName)
    (hnovol : ∀ v ∈ dpl.template.volumes, ¬ v.name.startsWith kubetapStr = true)
    (hnotppd : ∀ kv ∈ dpl.template.annotations, kv.1 ≠ annotationIsTapped)
    (huniqd : ∀ x ∈ c.deployments, x.ns = dpl.ns → x.name = dpl.name → x = dpl)
    (hnoann : ∀ kv ∈ svc.annotations, kv.1 ≠ annotationOriginalTargetPort)
    (hnoweb : ∀ sp ∈ svc.ports, sp.name ≠ kubetapServicePortName)
    (hno7777 : ∀ sp ∈ svc.ports, sp.targetPort.intValue ≠ kubetapProxyListenPort)
    (huniqs : ∀ x ∈ c.services, x.ns = svc.ns → x.name = svc.name → x = svc)
    (hscheddpl : sched.dpl = [])
    (hschedsvc : sched.svc = []) :
    NewUntapCommand c a sched = (.ok (), c) := by
  simp only [NewUntapCommand, hns, hhas, hget, hsel,
    if_neg (show ¬ dpl.ns ≠ ns from fun hh => hh hdplns)]
  simp only [Mitmproxy.UnreadyEnv, mkUntapProxyOpts,
    destroyMitmproxyConfigMap_noMatch c ns dpl.name hdplname hnocm]
  simp only [untapAfterEnv, hscheddpl, hschedsvc,
    show defaultRetrySteps = 4 + 1 from rfl,
    untapDplLoop_succ_nosched ns dpl.name 4 c dpl hgd,
    untapDplTransform_fix dpl hnosc hnovol hnotppd,
    updateDeployment_id c dpl huniqd]
  simp only [untapSvc, show defaultRetrySteps = 4 + 1 from rfl,
    svcUpdateLoop_succ_nosched (fun s => .ok (untapSvcTransform s)) ns a.targetSvcName 4 c svc svc
      hget (by show Except.ok (untapSvcTransform svc) = Except.ok svc
               rw [untapSvcTransform_fix svc hnoann hnoweb hno7777]),
    updateService_id c svc huniqs]
  simp

def c3Cluster : Cluster :=
  { namespaces := [r"default"]
    services := [c1WitnessSvc]
    deployments := [c5Dpl]
    configMaps := [] }

def c3Args : UntapArgs := { targetSvcName := r"sample-service", ns := r"default" }

def c3Sched : UntapSched := { dpl := [], svc := [] }

/-- Witness for C3 at the untapped fixture. -/
theorem c3_untap_untapped_noop_witness :
    NewUntapCommand c3Cluster c3Args c3Sched = (.ok (), c3Cluster) :=
  c3_untap_untapped_noop c3Cluster c3Args c3Sched c1WitnessSvc c5Dpl (r"default")
    (by decide) rfl (by decide) (by decide) rfl (by decide) (by decide) (by decide)
    (by decide) (by decide) (by decide) (by decide) (by decide) (by decide) (by decide)
    (by decide) rfl rfl

def c3CexSvc : Service :=
  { name := r"svc3"
    ns := r"default"
    annotations := [(r"x", r"y")]
    selector := [(r"app", r"a")]
    ports := [{ name := r"p", port := 9, targetPort := .int 7777 }] }

def c3CexDpl : Deployment :=
  { name := r"d3"
    ns := r"default"
    labels := [(r"app", r"a")]
    template := { annotations := [], containers := [], volumes := [] } }

def c3CexCluster : Cluster :=
  { namespaces := [r"default"]
    services := [c3CexSvc]
    deployments := [c3CexDpl]
    configMaps := [] }

/-- C3 counterexample: the Service is already untapped by every criterion
the claim lists (no annotation, no kubetap-web entry, clean Deployment),
yet untap is not a no-op on its port list: the entry legitimately
targeting 7777 has its target rewritten to the parse of the missing
annotation, the empty name. -/
theorem c3_counterexample :
    (NewUntapCommand c3CexCluster { targetSvcName := r"svc3", ns := r"default" }
      { dpl := [], svc := [] }).1 = .ok ()
    ∧ ((getService (NewUntapCommand c3CexCluster { targetSvcName := r"svc3", ns := r"default" }
        { dpl := [], svc := [] }).2 (r"default") (r"svc3")).map (fun s => s.ports)) =
      some [{ name := r"p", port := 9, targetPort := .str (r"") }]
    ∧ c3CexSvc.ports = [{ name := r"p", port := 9, targetPort := .int 7777 }] := by
  decide

/-! ### Claim C4: compensating rollback on tap failure -/

/-- C4: once the preparation steps have succeeded, a failure of the
Deployment update loop, or of the Service port swap after a successful
injection, makes NewTapCommand run the full untap command on the failure
state and return the original step error (the Deployment failure wrapped
with its step context); the rollback contributes only its final cluster,
never its own error, whatever that rollback returns. -/
theorem c4_rollback_surfaces_original_error
    (c : Cluster) (a : TapArgs) (sched : TapSched) (svc : Service) (ns : String)
    (up : String) (dpl0 dpl : Deployment) (c1 : Cluster)
    (hns : (if a.ns = "" then "default" else a.ns) = ns)
    (hport : a.targetSvcPort ≠ 0)
    (hproto : a.protocol = "http")
    (hhas : hasNamespace c ns = true)
    (hget : getService c ns a.targetSvcName = some svc)
    (huntapped : ¬ annGetD svc.annotations annotationOriginalTargetPort ≠ "")
    (hup : resolveUpstreamPort (deploymentsIn c ns) svc a.targetSvcPort = .ok up)
    (hsel : deploymentFromSelectors (deploymentsIn c ns) svc.selector = .ok dpl0)
    (hready : Mitmproxy.ReadyEnv c
      { target := a.targetSvcName, protocol := a.protocol, upstreamHTTPS := a.https,
        upstreamPort := up, mode := "reverse", ns := ns, image := a.image,
        dplName := dpl0.name } = (.ok (), c1))
    (hsel2 : deploymentFromSelectors (deploymentsIn c1 ns) svc.selector = .ok dpl) :
    (∀ e c2 c3,
      tapDplLoop { Mitmproxy.Sidecar dpl.name with image := a.image, args := a.commandArgs }
          defaultRetrySteps c1 dpl sched.dpl = (.ok (), c2) →
      tapSvc c2 ns a.targetSvcName a.targetSvcPort sched.svc = (.error e, c3) →
      NewTapCommand c a sched =
        (.error e,
         (NewUntapCommand c3 { targetSvcName := a.targetSvcName, ns := a.ns } sched.rollback).2))
    ∧ (∀ e2 c2,
      tapDplLoop { Mitmproxy.Sidecar dpl.name with image := a.image, args := a.commandArgs }
          defaultRetrySteps c1 dpl sched.dpl = (.error e2, c2) →
      NewTapCommand c a sched =
        (.error (.Wrapped wrapAddSidecarsMsg e2),
         (NewUntapCommand c2 { targetSvcName := a.targetSvcName, ns := a.ns } sched.rollback).2)) := by
  have hg1 : ¬ (a.image = defaultImageHTTP ∧ (a.protocol = "tcp" ∨ a.protocol = "udp")) := by
    rintro ⟨-, h2⟩
    rw [hproto] at h2
    rcases h2 with h2 | h2 <;> exact absurd h2 (by decide)
  have hg2 : ¬ (a.image = defaultImageHTTP ∧ a.protocol = "grpc") := by
    rintro ⟨-, h2⟩
    rw [hproto] at h2
    exact absurd h2 (by decide)
  constructor
  · intro e c2 c3 hloop htapsvc
    simp only [NewTapCommand, hns, if_neg hport, hhas, if_neg hg1, if_neg hg2, hget,
      if_neg huntapped, hup, hsel, hready, hsel2, hloop, htapsvc]
    simp
  · intro e2 c2 hloop
    simp only [NewTapCommand, hns, if_neg hport, hhas, if_neg hg1, if_neg hg2, hget,
      if_neg huntapped, hup, hsel, hready, hsel2, hloop]
    simp

/-- A Service that does not carry the requested port 80, so that the port
swap step fails after injection succeeded. -/
def c4Svc : Service :=
  { name := r"sample-service"
    ns := r"default"
    annotations := []
    selector := [(r"app", r"myapp")]
    ports := [{ name := r"", port := 90, targetPort := .int 8080 }] }

def c4Cluster : Cluster :=
  { namespaces := [r"default"]
    services := [c4Svc]
    deployments := [c5Dpl]
    configMaps := [] }

def c4Args : TapArgs :=
  { targetSvcName := r"sample-service"
    protocol := r"http"
    targetSvcPort := 80
    ns := r"default"
    image := defaultImageHTTP
    https := false
    commandArgs := [] }

def c4Sched : TapSched := { dpl := [], svc := [], rollback := { dpl := [], svc := [] } }

def c4Opts : ProxyOptions :=
  { target := r"sample-service"
    protocol := r"http"
    upstreamHTTPS := false
    upstreamPort := r""
    mode := "reverse"
    ns := r"default"
    image := defaultImageHTTP
    dplName := r"sample-deployment" }

def c4Sidecar : Container :=
  { Mitmproxy.Sidecar (r"sample-deployment") with image := defaultImageHTTP, args := [] }

/-- The cluster after environment preparation (ConfigMap created). -/
def c4C1 : Cluster := (Mitmproxy.ReadyEnv c4Cluster c4Opts).2

/-- The cluster after sidecar injection. -/
def c4C2 : Cluster := (tapDplLoop c4Sidecar defaultRetrySteps c4C1 c5Dpl []).2

/-- Witness for C4: the port swap fails with the wrapped ServiceMissingPort
and that error, not the rollback outcome, is returned, with the rollback
untap command supplying the final cluster. -/
theorem c4_rollback_surfaces_original_error_witness :
    NewTapCommand c4Cluster c4Args c4Sched =
      (.error (.Wrapped wrapTapSvcMsg .ServiceMissingPort),
       (NewUntapCommand c4C2 { targetSvcName := r"sample-service", ns := r"default" }
         c4Sched.rollback).2) :=
  (c4_rollback_surfaces_original_error c4Cluster c4Args c4Sched c4Svc (r"default") (r"")
    c5Dpl c5Dpl c4C1 (by decide) (by decide) rfl (by decide) (by decide) (by decide)
    (by decide) (by decide) (by decide) (by decide)).1
    (.Wrapped wrapTapSvcMsg .ServiceMissingPort) c4C2 c4C2 (by decide) (by decide)

/-! ### Claim C9: ConfigMap destroy position in the untap sequence -/

/-- A destroy call that returns an error has not modified the cluster. -/
theorem destroyMitmproxyConfigMap_error_state (c c' : Cluster) (ns n : String) (e : Err)
    (h : destroyMitmproxyConfigMap (clusterCMClient ns) c n = (.error e, c')) : c' = c := by
  simp only [destroyMitmproxyConfigMap, clusterCMClient] at h
  split at h
  · exact ((Prod.mk.injEq _ _ _ _).mp h).2.symm
  · split at h
    · exact ((Prod.mk.injEq _ _ _ _).mp h).2.symm
    · split at h
      · exact ((Prod.mk.injEq _ _ _ _).mp h).2.symm
      · exact absurd ((Prod.mk.injEq _ _ _ _).mp h).1 (by simp)

theorem untapDplLoop_configMaps (ns d : String) :
    ∀ (n : Nat) (c : Cluster) (sched : List Bool),
      ((untapDplLoop ns d n c sched).2).configMaps = c.configMaps := by
  intro n
  induction n with
  | zero => intro c sched; rfl
  | succ k ih =>
    intro c sched
    cases hg : getDeployment c ns d with
    | none => simp only [untapDplLoop, hg]
    | some dep =>
      cases sched with
      | nil =>
        simp only [untapDplLoop, hg]
        rfl
      | cons b rest =>
        cases b
        · simp only [untapDplLoop, hg]
          rfl
        · simp only [untapDplLoop, hg]
          exact ih c rest

theorem svcUpdateLoop_configMaps (transform : Service → Except Err Service) (ns name : String) :
    ∀ (n : Nat) (c : Cluster) (sched : List Bool),
      ((svcUpdateLoop transform ns name n c sched).2).configMaps = c.configMaps := by
  intro n
  induction n with
  | zero => intro c sched; rfl
  | succ k ih =>
    intro c sched
    cases hg : getService c ns name with
    | none => simp only [svcUpdateLoop, hg]
    | some svc =>
      cases ht : transform svc with
      | error e => simp only [svcUpdateLoop, hg, ht]
      | ok svc2 =>
        cases sched with
        | nil =>
          simp only [svcUpdateLoop, hg, ht]
          rfl
        | cons b rest =>
          cases b
          · simp only [svcUpdateLoop, hg, ht]
            rfl
          · simp only [svcUpdateLoop, hg, ht]
            exact ih c rest

theorem untapSvc_configMaps (c : Cluster) (ns name : String) (sched : List Bool) :
    ((untapSvc c ns name sched).2).configMaps = c.configMaps := by
  have h := svcUpdateLoop_configMaps (fun s => .ok (untapSvcTransform s)) ns name
    defaultRetrySteps c sched
  cases hl : svcUpdateLoop (fun s => .ok (untapSvcTransform s)) ns name defaultRetrySteps c sched
    with
  | mk r c2 =>
    rw [hl] at h
    cases r with
    | error e => simpa [untapSvc, hl] using h
    | ok u => simpa [untapSvc, hl] using h

/-- The untap tail after the destroy step never touches the ConfigMaps. -/
theorem untapAfterEnv_configMaps (c : Cluster) (ns x y : String) (sched : UntapSched) :
    ((untapAfterEnv c ns x y sched).2).configMaps = c.configMaps := by
  have h1 := untapDplLoop_configMaps ns y defaultRetrySteps c sched.dpl
  cases hl : untapDplLoop ns y defaultRetrySteps c sched.dpl with
  | mk r c2 =>
    rw [hl] at h1
    cases r with
    | error e => simpa [untapAfterEnv, hl] using h1
    | ok u =>
      have h2 := untapSvc_configMaps c2 ns x sched.svc
      cases hs : untapSvc c2 ns x sched.svc with
      | mk r2 c3 =>
        rw [hs] at h2
        cases r2 with
        | error e => simp only [untapAfterEnv, hl, hs]; exact h2.trans h1
        | ok u2 => simp only [untapAfterEnv, hl, hs]; exact h2.trans h1

/-- C9 (amended): NewUntapCommand destroys the per-target ConfigMap as its
FIRST mutating step, before the sidecar removal and the Service port
restoration; a ConfigMapNoMatch outcome is tolerated and the sequence
continues, while any other destroy error aborts the untap before any
Deployment or Service mutation (the cluster is returned exactly as it
was); the remaining steps never touch the ConfigMaps, so a failure in
them leaves the ConfigMap already destroyed. -/
theorem c9_untap_configmap_order
    (c : Cluster) (a : UntapArgs) (sched : UntapSched) (svc : Service) (dpl : Deployment)
    (ns : String)
    (hns : (if a.ns = "" then "default" else a.ns) = ns)
    (hhas : hasNamespace c ns = true)
    (hget : getService c ns a.targetSvcName = some svc)
    (hsel : deploymentFromSelectors (deploymentsIn c ns) svc.selector = .ok dpl)
    (hdplns : dpl.ns = ns) :
    (∀ e c1, Mitmproxy.UnreadyEnv c (mkUntapProxyOpts ns a.targetSvcName dpl.name) =
        (.error e, c1) → e ≠ .ConfigMapNoMatch →
        NewUntapCommand c a sched = (.error e, c1) ∧ c1 = c)
    ∧ (∀ c1, Mitmproxy.UnreadyEnv c (mkUntapProxyOpts ns a.targetSvcName dpl.name) =
        (.error .ConfigMapNoMatch, c1) →
        NewUntapCommand c a sched = untapAfterEnv c1 ns a.targetSvcName dpl.name sched)
    ∧ (∀ c1, Mitmproxy.UnreadyEnv c (mkUntapProxyOpts ns a.targetSvcName dpl.name) =
        (.ok (), c1) →
        NewUntapCommand c a sched = untapAfterEnv c1 ns a.targetSvcName dpl.name sched)
    ∧ (∀ c', ((untapAfterEnv c' ns a.targetSvcName dpl.name sched).2).configMaps =
        c'.configMaps) := by
  have hnn : ¬ dpl.ns ≠ ns := fun hh => hh hdplns
  refine ⟨?_, ?_, ?_, fun c' => untapAfterEnv_configMaps c' ns a.targetSvcName dpl.name sched⟩
  · intro e c1 hue hne
    constructor
    · simp only [NewUntapCommand, hns, hhas, hget, hsel, if_neg hnn, hue, if_neg hne]
      simp
    · have hue2 : destroyMitmproxyConfigMap (clusterCMClient ns) c dpl.name = (.error e, c1) := by
        simpa [Mitmproxy.UnreadyEnv, mkUntapProxyOpts] using hue
      exact destroyMitmproxyConfigMap_error_state c c1 ns dpl.name e hue2
  · intro c1 hue
    simp only [NewUntapCommand, hns, hhas, hget, hsel, if_neg hnn, hue, if_pos rfl]
    simp
  · intro c1 hue
    simp only [NewUntapCommand, hns, hhas, hget, hsel, if_neg hnn, hue]
    simp

/-- Witness for C9: on the untapped fixture the destroy reports
ConfigMapNoMatch and the sequence continues with the Deployment and
Service steps. -/
theorem c9_untap_configmap_order_witness :
    NewUntapCommand c3Cluster c3Args c3Sched =
      untapAfterEnv c3Cluster (r"default") (r"sample-service") (r"sample-deployment") c3Sched :=
  (c9_untap_configmap_order c3Cluster c3Args c3Sched c1WitnessSvc c5Dpl (r"default")
    (by decide) rfl (by decide) (by decide) rfl).2.1 c3Cluster (by decide)

def c9SidecarContainer : Container := Mitmproxy.Sidecar (r"sample-deployment")

/-- A fully tapped fixture: tapped Service, Deployment carrying the
sidecar and kubetap volumes, and the per-target ConfigMap. -/
def c9Dpl : Deployment :=
  { name := r"sample-deployment"
    ns := r"default"
    labels := [(r"app", r"myapp")]
    template :=
      { annotations := [(annotationIsTapped, r"sample-deployment")]
        containers := [c6Container, c9SidecarContainer]
        volumes := [
          { name := kubetapConfigMapPrefixStr ++ r"sample-deployment"
            source := .configMap (kubetapConfigMapPrefixStr ++ r"sample-deployment") },
          { name := mitmproxyDataVolName, source := .emptyDir } ] } }

def c9CM : ConfigMap :=
  { name := kubetapConfigMapPrefixStr ++ r"sample-deployment"
    ns := r"default"
    annotations := [(annotationConfigMap, configMapAnnotationPrefixStr ++ r"sample-deployment")]
    binaryData := some [(mitmproxyConfigFile, c8Payload)] }

def c9Cluster : Cluster :=
  { namespaces := [r"default"]
    services := [c1WitnessTapped]
    deployments := [c9Dpl]
    configMaps := [c9CM] }

/-- C9 counterexample: the claim places the ConfigMap destroy after the
sidecar removal and port restoration, but when the Deployment update
exhausts its conflict retries the untap fails with the ConfigMap already
gone while the sidecar is still in place and the Service still tapped:
the destroy happened first, not last. -/
theorem c9_counterexample :
    (NewUntapCommand c9Cluster c3Args { dpl := [true, true, true, true, true], svc := [] }).1 =
      .error (.Wrapped wrapRemoveSidecarsMsg .Conflict)
    ∧ (NewUntapCommand c9Cluster c3Args
        { dpl := [true, true, true, true, true], svc := [] }).2.configMaps = []
    ∧ ((NewUntapCommand c9Cluster c3Args
        { dpl := [true, true, true, true, true], svc := [] }).2.deployments.map
          (fun d => d.template.containers.map (fun ct => ct.name))) =
      [[r"app", kubetapContainerName]]
    ∧ ((getService (NewUntapCommand c9Cluster c3Args
        { dpl := [true, true, true, true, true], svc := [] }).2
          (r"default") (r"sample-service")).map
        (fun s => annGetD s.annotations annotationOriginalTargetPort)) = some (r"8080") := by
  decide

end Kubetap
